import Mathlib

/-!
Verification development for the tars evidence-to-governance pipeline.

The repository turns a piece of photographic field evidence into an on-chain
governance proposal: a media-analyst agent normalizes the photo and enriches it
with weather/location context, the analysis is pinned to content-addressed
storage, a social-impact agent serializes the analysis into a proposal
description and submits it to a DAO contract, and a frontend parses the
description back for display and voting.

This file gives a shallow embedding of the functions involved and proves (or
refutes) the specified properties about them.  JavaScript strings are modelled
by Lean String values with hand-rolled, kernel-computable versions of the
JavaScript primitives used by the code (split, trim, startsWith, includes,
parseInt); JavaScript numbers holding integral values are modelled by Int/Nat;
Solidity uint256 arithmetic never overflows in the scenarios treated here and
is modelled by Nat; revert reason strings are modelled by a dedicated inductive
type, one constructor per distinct reason string in the source.
-/

namespace Tars

/-! ## JavaScript string primitives

Kernel-computable models of the JavaScript string operations used by the
serializer (create-proposal.action.ts) and the parser (Voting.tsx).  The
splitter is written with explicit fuel so that it is structurally recursive and
reduces inside the kernel. -/

/-- Fuel-driven splitter over character lists: splits on every non-overlapping
occurrence of the separator kw :: ks, scanning left to right, exactly like the
JavaScript String.split with a non-empty string separator. -/
def chSplitF (kw : Char) (ks : List Char) : Nat → List Char → List (List Char)
  | _, [] => [[]]
  | 0, l => [l]
  | fuel + 1, a :: as =>
    if (kw :: ks).isPrefixOf (a :: as) then
      [] :: chSplitF kw ks fuel (as.drop ks.length)
    else
      match chSplitF kw ks fuel as with
      | [] => [[a]]
      | h :: t => (a :: h) :: t

/-- Splits a character list on a non-empty separator. -/
def chSplit (kw : Char) (ks : List Char) (l : List Char) : List (List Char) :=
  chSplitF kw ks l.length l

/-- Model of the JavaScript s.split(sep).  For an empty separator JavaScript
splits into single characters; the code never does that. -/
def jsSplit (sep s : String) : List String :=
  match sep.data with
  | [] => s.data.map fun ch => String.mk [ch]
  | kw :: ks => (chSplit kw ks s.data).map String.mk

/-- Model of the JavaScript s.startsWith(pat). -/
def jsStartsWith (pat s : String) : Bool :=
  pat.data.isPrefixOf s.data

/-- Model of the JavaScript s.includes(pat): true iff splitting on pat gives
more than one part (equivalent for non-empty pat). -/
def jsIncludes (pat s : String) : Bool :=
  match pat.data with
  | [] => true
  | kw :: ks => (chSplit kw ks s.data).length != 1

/-- Whitespace trimming on character lists (both ends). -/
def chTrim (l : List Char) : List Char :=
  ((l.dropWhile Char.isWhitespace).reverse.dropWhile Char.isWhitespace).reverse

/-- Model of the JavaScript s.trim(). -/
def jsTrim (s : String) : String :=
  String.mk (chTrim s.data)

/-- Model of the JavaScript s.toLowerCase() (ASCII-adequate). -/
def jsToLower (s : String) : String :=
  String.mk (s.data.map Char.toLower)

/-- Model of the JavaScript s.substring(n). -/
def jsSubstringFrom (n : Nat) (s : String) : String :=
  String.mk (s.data.drop n)

/-- Digit-run parser: value of the maximal leading run of decimal digits,
none when the run is empty (JavaScript NaN). -/
def parseDigitRun (l : List Char) : Option Nat :=
  let ds := l.takeWhile Char.isDigit
  if ds.isEmpty then none
  else some (ds.foldl (fun a c => 10 * a + (c.toNat - 48)) 0)

/-- Model of the JavaScript parseInt(s) (base 10): skips leading whitespace,
accepts an optional sign, parses the maximal digit run; none models NaN. -/
def jsParseInt (s : String) : Option Int :=
  match s.data.dropWhile Char.isWhitespace with
  | [] => none
  | c :: rest =>
    if c = '-' then (parseDigitRun rest).map fun n => -(n : Int)
    else if c = '+' then (parseDigitRun rest).map fun n => (n : Int)
    else (parseDigitRun (c :: rest)).map fun n => (n : Int)

/-- Model of the JavaScript parseFloat, restricted to the integral values the
pipeline feeds it (coordinates are modelled as integers). -/
def jsParseFloat (s : String) : Option Int :=
  jsParseInt s

/-- Newline join of a list of lines (the template literal emits its lines
joined by newline characters). -/
def joinNL : List String → String
  | [] => ""
  | [x] => x
  | x :: y :: rest => x ++ "\n" ++ joinNL (y :: rest)

/-! ## Governance contracts

Models of contracts/SimpleDAO.sol and the TarsDAO contract (ERC20-weighted
variant).  Addresses are abstract naturals; block.timestamp is an explicit
now parameter; mapping(address => bool) sets are membership lists;
mapping(address => uint256) is an association list; uint256 arithmetic is Nat
(no overflow occurs in the modelled paths); each require reason string becomes
one constructor of a revert type. -/

abbrev Address := Nat

namespace SimpleDAO

/-- Revert reasons of SimpleDAO.sol, one constructor per require string. -/
inductive Revert where
  /-- "Not a member" -/
  | notAMember
  /-- "No stake to withdraw" -/
  | noStake
  /-- "Cannot leave while proposals are active" -/
  | activeProposalsOpen
  /-- "Transfer failed" -/
  | transferFailed
  /-- "Proposal doesn't exist" -/
  | proposalMissing
  /-- "Voting period ended" -/
  | votingEnded
  /-- "Already voted" -/
  | alreadyVoted
  /-- "Already executed" -/
  | alreadyExecuted
  /-- "Voting still in progress" -/
  | votingInProgress
  /-- "Quorum not reached" -/
  | quorumNotReached
  /-- "Proposal rejected" -/
  | proposalRejected
  deriving DecidableEq, Repr

/-- Proposal struct of SimpleDAO.sol; the hasVoted mapping is the list of
addresses marked true. -/
structure Proposal where
  description : String
  forVotes : Nat
  againstVotes : Nat
  deadline : Nat
  executed : Bool
  existsFlag : Bool
  hasVoted : List Address
  deriving DecidableEq, Repr

/-- VOTING_PERIOD = 7 days, in seconds. -/
def VOTING_PERIOD : Nat := 7 * 24 * 60 * 60

/-- QUORUM = 2 (minimum total votes required by executeProposal). -/
def QUORUM : Nat := 2

/-- MINIMUM_STAKE = 0.01 ether, in wei. -/
def MINIMUM_STAKE : Nat := 10 ^ 16

/-- Contract-level state of SimpleDAO relevant to membership: the members set,
the stakes mapping, the proposals that exist, and the contract ETH balance. -/
structure DAOState where
  members : List Address
  stakes : List (Address × Nat)
  proposals : List Proposal
  balance : Nat
  deriving DecidableEq, Repr

/-- Reads memberStakes (mapping default 0). -/
def stakeOf (s : DAOState) (a : Address) : Nat :=
  match s.stakes.find? (fun p => p.1 == a) with
  | some p => p.2
  | none => 0

/-- Writes memberStakes[a] = v. -/
def setStake (st : List (Address × Nat)) (a : Address) (v : Nat) :
    List (Address × Nat) :=
  st.map fun p => if p.1 == a then (p.1, v) else p

/-- Helper of SimpleDAO.sol, lines 72-75: the body is a stub that always
reports no active proposals (the source comment says the implementation can be
enhanced); the proposals actually held in the state are never consulted. -/
def hasActiveProposals (_ : DAOState) : Bool :=
  false

/-- leaveDAO of SimpleDAO.sol: requires membership and a positive stake, zeroes
the membership and stake, checks the (stubbed) active-proposal guard, then
transfers the recorded stake back to the caller.  Returns the new state and the
refunded amount. -/
def leaveDAO (s : DAOState) (sender : Address) : Except Revert (DAOState × Nat) :=
  if ¬ s.members.contains sender then .error .notAMember
  else if ¬ 0 < stakeOf s sender then .error .noStake
  else
    let stake := stakeOf s sender
    let s1 : DAOState :=
      { s with members := s.members.erase sender,
               stakes := setStake s.stakes sender 0 }
    if hasActiveProposals s1 then .error .activeProposalsOpen
    else if s1.balance < stake then .error .transferFailed
    else .ok ({ s1 with balance := s1.balance - stake }, stake)

/-- vote of SimpleDAO.sol: member-only, proposal must exist, voting open
(block.timestamp less than or equal to the deadline), one vote per member; adds
a flat weight of 1 to forVotes or againstVotes. -/
def vote (members : List Address) (sender : Address) (p : Proposal)
    (support : Bool) (now : Nat) : Except Revert Proposal :=
  if ¬ members.contains sender then .error .notAMember
  else if ¬ p.existsFlag then .error .proposalMissing
  else if ¬ now ≤ p.deadline then .error .votingEnded
  else if p.hasVoted.contains sender then .error .alreadyVoted
  else .ok { p with
    hasVoted := sender :: p.hasVoted,
    forVotes := if support then p.forVotes + 1 else p.forVotes,
    againstVotes := if support then p.againstVotes else p.againstVotes + 1 }

/-- executeProposal of SimpleDAO.sol, lines 107-117: member-only; requires the
proposal to exist, not be executed, the deadline to be strictly past, the vote
total to reach QUORUM and forVotes to strictly exceed againstVotes; then marks
the proposal executed. -/
def executeProposal (members : List Address) (sender : Address) (p : Proposal)
    (now : Nat) : Except Revert Proposal :=
  if ¬ members.contains sender then .error .notAMember
  else if ¬ p.existsFlag then .error .proposalMissing
  else if p.executed then .error .alreadyExecuted
  else if ¬ now > p.deadline then .error .votingInProgress
  else if ¬ p.forVotes + p.againstVotes ≥ QUORUM then .error .quorumNotReached
  else if ¬ p.forVotes > p.againstVotes then .error .proposalRejected
  else .ok { p with executed := true }

/-- Modelled from the spec: a member has an unresolved vote pending on an
active proposal when some existing, unexecuted proposal whose voting window is
still open records a vote by that member.  SimpleDAO.sol itself has no such
computation; this predicate only states the claim about leaveDAO. -/
def hasUnresolvedVotes (s : DAOState) (a : Address) (now : Nat) : Bool :=
  s.proposals.any fun p =>
    p.existsFlag && !p.executed && decide (now ≤ p.deadline) && p.hasVoted.contains a

end SimpleDAO

namespace TarsDAO

/-- Revert reasons of the TarsDAO contract, one constructor per require
string. -/
inductive Revert where
  /-- "Not authorized" -/
  | notAuthorized
  /-- "Cause doesn't exist" -/
  | causeMissing
  /-- "Already voted" -/
  | alreadyVoted
  /-- "Voting period ended" -/
  | votingEnded
  /-- "Not enough verifications" -/
  | notEnoughVerifications
  /-- "Already executed" -/
  | alreadyExecuted
  /-- "Voting still ongoing" -/
  | votingOngoing
  /-- "Vote not passed" -/
  | voteNotPassed
  /-- "Insufficient DAO balance" -/
  | insufficientBalance
  /-- "Transfer failed" -/
  | transferFailed
  deriving DecidableEq, Repr

/-- VERIFICATION_THRESHOLD = 3. -/
def VERIFICATION_THRESHOLD : Nat := 3

/-- VOTING_PERIOD = 3 days, in seconds. -/
def VOTING_PERIOD : Nat := 3 * 24 * 60 * 60

/-- Cause struct of TarsDAO; the two per-address mappings are the lists of
addresses marked true; the image hash is abstract. -/
structure Cause where
  imageHash : Nat
  description : String
  requestedAmount : Nat
  beneficiary : Address
  verificationCount : Nat
  approvalCount : Nat
  disapprovalCount : Nat
  deadline : Nat
  executed : Bool
  existsFlag : Bool
  hasVerified : List Address
  hasVoted : List Address
  deriving DecidableEq, Repr

/-- vote of TarsDAO, lines 137-153: requires the verifier or agent role, an
existing cause, no prior vote by the sender, the voting window to be open
(block.timestamp strictly before the deadline), and the verification
threshold; then adds the sender's current governance-token balance to the
approval or disapproval tally. -/
def vote (verifiers agents : List Address) (balanceOf : Address → Nat)
    (c : Cause) (sender : Address) (support : Bool) (now : Nat) :
    Except Revert Cause :=
  if ¬ (verifiers.contains sender || agents.contains sender) then .error .notAuthorized
  else if ¬ c.existsFlag then .error .causeMissing
  else if c.hasVoted.contains sender then .error .alreadyVoted
  else if ¬ now < c.deadline then .error .votingEnded
  else if ¬ c.verificationCount ≥ VERIFICATION_THRESHOLD then .error .notEnoughVerifications
  else .ok { c with
    hasVoted := sender :: c.hasVoted,
    approvalCount := if support then c.approvalCount + balanceOf sender else c.approvalCount,
    disapprovalCount := if support then c.disapprovalCount else c.disapprovalCount + balanceOf sender }

/-- Result of a successful executeCause: the updated cause, the ETH transfer
performed, and the remaining contract balance. -/
structure ExecResult where
  cause : Cause
  paidTo : Address
  amountPaid : Nat
  newBalance : Nat
  deriving DecidableEq, Repr

/-- executeCause of TarsDAO, lines 155-169: requires an existing, unexecuted
cause, block.timestamp at or past the deadline (non-strict), the verification
threshold, approvals strictly above disapprovals, and a sufficient contract
balance; then marks the cause executed and transfers the requested amount to
the beneficiary. -/
def executeCause (c : Cause) (now : Nat) (daoBalance : Nat) :
    Except Revert ExecResult :=
  if ¬ c.existsFlag then .error .causeMissing
  else if c.executed then .error .alreadyExecuted
  else if ¬ now ≥ c.deadline then .error .votingOngoing
  else if ¬ c.verificationCount ≥ VERIFICATION_THRESHOLD then .error .notEnoughVerifications
  else if ¬ c.approvalCount > c.disapprovalCount then .error .voteNotPassed
  else if ¬ daoBalance ≥ c.requestedAmount then .error .insufficientBalance
  else .ok { cause := { c with executed := true },
             paidTo := c.beneficiary,
             amountPaid := c.requestedAmount,
             newBalance := daoBalance - c.requestedAmount }

/-- Modelled from the spec: the derived status of a proposal is passed at a
given time iff now is strictly past the deadline and approvals strictly
exceed disapprovals.  Used to compare executeCause against the specified
notion of a passed proposal. -/
def passedSpec (c : Cause) (now : Nat) : Bool :=
  decide (now > c.deadline) && decide (c.approvalCount > c.disapprovalCount)

end TarsDAO

/-! ## Dedup ledger

Model of the processed-cids.json file ledger in create-proposal.action.ts:
loadProcessedCIDs reads the whole file, isAlreadyProcessed is a membership
scan, saveProcessedCID appends and rewrites the file.  The file contents are
the shared state; one pipeline invocation for one content identifier performs
a check (isAlreadyProcessed) and, if negative, an act (create the proposal and
append the record) as two separate steps with awaits between them. -/

namespace Dedup

/-- ProcessedCID record of the ledger file; status true models the string
value success, false models failed. -/
structure ProcessedCID where
  cid : String
  proposalId : String
  timestamp : String
  status : Bool
  txHash : Option String
  deriving DecidableEq, Repr

/-- Contents of processed-cids.json. -/
abbrev Ledger := List ProcessedCID

/-- isAlreadyProcessed of create-proposal.action.ts, lines 219-222. -/
def isAlreadyProcessed (ledger : Ledger) (cid : String) : Bool :=
  ledger.any fun p => p.cid == cid

/-- saveProcessedCID of create-proposal.action.ts, lines 224-228 (load, push,
rewrite). -/
def saveProcessedCID (ledger : Ledger) (entry : ProcessedCID) : Ledger :=
  ledger ++ [entry]

/-- Outcome of one pipeline invocation for one content identifier. -/
inductive Outcome where
  | created (proposalId : String)
  | duplicate
  deriving DecidableEq, Repr

/-- Body of the per-CID loop of processNewAnalyses, lines 270-306, along the
successful path: if the ledger already holds the CID, report a duplicate and
leave the ledger alone; otherwise create the proposal (abstracted as producing
proposal id pid) and append the success record. -/
def processCID (ledger : Ledger) (cid pid ts : String) : Ledger × Outcome :=
  if isAlreadyProcessed ledger cid then (ledger, .duplicate)
  else (saveProcessedCID ledger
          { cid := cid, proposalId := pid, timestamp := ts,
            status := true, txHash := none },
        .created pid)

/-- Where one concurrent invocation stands: before its ledger check, after the
check (remembering what it saw), or finished with an outcome. -/
inductive CallerPhase where
  | start
  | checked (sawDup : Bool)
  | finished (out : Outcome)
  deriving DecidableEq, Repr

/-- State shared by two concurrent invocations for the same content
identifier: the ledger file, each caller's phase, and how many proposals have
been created on chain for that identifier. -/
structure ConcState where
  ledger : Ledger
  phase1 : CallerPhase
  phase2 : CallerPhase
  createdCount : Nat
  deriving DecidableEq, Repr

/-- One atomic step of one caller.  The split into a check step and an act
step mirrors the awaits separating isAlreadyProcessed from createProposal and
saveProcessedCID in processNewAnalyses; each file read and each file write is
atomic, but the pair is not. -/
def stepCaller (cid pid ts : String) (ledger : Ledger) (created : Nat) :
    CallerPhase → CallerPhase × Ledger × Nat
  | .start => (.checked (isAlreadyProcessed ledger cid), ledger, created)
  | .checked true => (.finished .duplicate, ledger, created)
  | .checked false =>
      (.finished (.created pid),
       saveProcessedCID ledger
         { cid := cid, proposalId := pid, timestamp := ts,
           status := true, txHash := none },
       created + 1)
  | .finished o => (.finished o, ledger, created)

/-- Runs one step of caller 1 (true) or caller 2 (false). -/
def stepSys (cid pid ts : String) (s : ConcState) (i : Bool) : ConcState :=
  if i then
    let r := stepCaller cid pid ts s.ledger s.createdCount s.phase1
    { s with phase1 := r.1, ledger := r.2.1, createdCount := r.2.2 }
  else
    let r := stepCaller cid pid ts s.ledger s.createdCount s.phase2
    { s with phase2 := r.1, ledger := r.2.1, createdCount := r.2.2 }

/-- Runs a whole interleaving schedule. -/
def runSched (cid pid ts : String) (s : ConcState) : List Bool → ConcState
  | [] => s
  | i :: rest => runSched cid pid ts (stepSys cid pid ts s i) rest

end Dedup

/-! ## Weather provider

Model of weather.provider.ts.  Each HTTP fetch against the OpenWeather API is
an oracle value: a parsed payload on success, a non-ok HTTP status, or a
thrown network failure. -/

namespace WeatherP

/-- Payload fields of one weather API response that the provider carries
through (abstracted). -/
structure WeatherData where
  temp : Int
  conditions : String
  dt : Nat
  deriving DecidableEq, Repr

/-- Outcome of one fetch against a weather endpoint: a successful parse, a
non-ok HTTP status with its body, or a thrown network failure. -/
inductive FetchOutcome where
  | success (data : WeatherData)
  | httpStatus (code : Nat) (body : String)
  | netFailure
  deriving DecidableEq, Repr

/-- Weather record returned by the provider; timestampMark models the
timestamp field that getHistoricalWeather adds to historical payloads and
that current-conditions payloads lack.  No other marking exists. -/
structure WeatherRec where
  data : WeatherData
  timestampMark : Option Nat
  deriving DecidableEq, Repr

/-- getCurrentWeather of weather.provider.ts, lines 40-69: null without an API
key; on any fetch failure the local catch logs and returns null; otherwise the
payload, with no timestamp mark. -/
def getCurrentWeather (apiKey : Bool) (cur : FetchOutcome) : Option WeatherRec :=
  if ¬ apiKey then none
  else match cur with
    | .success d => some { data := d, timestampMark := none }
    | .httpStatus _ _ => none
    | .netFailure => none

/-- getHistoricalWeather of weather.provider.ts, lines 71-138: null without an
API key; on a successful historical fetch, the transformed payload carrying
the timestamp mark; on a 401/403 status, explicit fallback to current
conditions; on any other failure (other statuses are thrown and the catch at
line 131 catches them, as well as network failures) the catch-all falls back
to current conditions too. -/
def getHistoricalWeather (apiKey : Bool) (hist cur : FetchOutcome) :
    Option WeatherRec :=
  if ¬ apiKey then none
  else match hist with
    | .success d => some { data := d, timestampMark := some d.dt }
    | .httpStatus code _ =>
        if code == 401 || code == 403 then getCurrentWeather apiKey cur
        else getCurrentWeather apiKey cur
    | .netFailure => getCurrentWeather apiKey cur

end WeatherP

/-! ## Image size normalization

Models of the two resize routines in analyze-photo.action.ts and the one in
image-analysis.provider.ts.  The JPEG encoders (sharp, heic-convert) are
oracles mapping encoder settings to the byte size of their output; only the
byte sizes matter to the control flow. -/

namespace Resize

/-- MAX_SIZE = 5 MiB (analyze-photo.action.ts, lines 123 and 387). -/
def MAX_SIZE : Nat := 5 * 1024 * 1024

/-- Quality-reduction loop of convertHeicToBuffer, lines 131-137: while the
last encoding is over MAX_SIZE and quality is above 30, drop quality by 10 and
re-encode the converted JPEG.  encQ gives the byte size of the re-encoding at
a given quality; fuel makes the recursion structural (quality strictly
decreases, so fuel 80 always suffices for the initial quality 80). -/
def heicQualityLoopF (encQ : Nat → Nat) : Nat → Nat → Nat → Nat × Nat
  | 0, size, q => (size, q)
  | fuel + 1, size, q =>
    if size > MAX_SIZE ∧ q > 30 then heicQualityLoopF encQ fuel (encQ (q - 10)) (q - 10)
    else (size, q)

/-- convertHeicToBuffer of analyze-photo.action.ts, lines 113-155, after the
HEIC-to-JPEG conversion produced a buffer of heicSize bytes: if over MAX_SIZE,
re-encode at quality 80 and run the quality loop; if still over MAX_SIZE, do
one final 1600x1600 resize at quality max(q, 30) and return that buffer with
no further size check and no failure path. -/
def convertHeicToBuffer (heicSize : Nat) (encQ : Nat → Nat)
    (encResize : Nat → Nat → Nat) : Nat :=
  if heicSize > MAX_SIZE then
    let r := heicQualityLoopF encQ 80 (encQ 80) 80
    if r.1 > MAX_SIZE then encResize 1600 (max r.2 30) else r.1
  else heicSize

/-- TARGET_SIZE of image-analysis.provider.ts, line 20: the 5 MiB transport
ceiling divided by the 1.37 base64 overhead factor, floored (= 3826919). -/
def TARGET_SIZE : Nat := 3826919

/-- Quality/dimension loop of resizeImageIfNeeded, lines 57-70: while over
TARGET_SIZE and quality above 15, drop quality by 15 and re-encode the
original at dimension 800 (when the new quality is below 30) or 1200.  enc
gives the byte size at a given dimension cap and quality. -/
def providerLoopF (enc : Nat → Nat → Nat) : Nat → Nat → Nat → Nat × Nat
  | 0, size, q => (size, q)
  | fuel + 1, size, q =>
    if size > TARGET_SIZE ∧ q > 15 then
      let q' := q - 15
      let dim := if q' < 30 then 800 else 1200
      providerLoopF enc fuel (enc dim q') q'
    else (size, q)

/-- resizeImageIfNeeded of image-analysis.provider.ts, lines 28-93: returns
the buffer unchanged when under TARGET_SIZE; otherwise resizes at 1200px and
quality 60, runs the reduction loop, then a last 600px quality-10 attempt, and
throws when even that is over TARGET_SIZE. -/
def resizeImageIfNeeded (origSize : Nat) (enc : Nat → Nat → Nat) :
    Except String Nat :=
  if origSize ≤ TARGET_SIZE then .ok origSize
  else
    let r := providerLoopF enc 60 (enc 1200 60) 60
    if r.1 > TARGET_SIZE then
      let f := enc 600 10
      if f > TARGET_SIZE then .error "Unable to resize image below target size"
      else .ok f
    else .ok r.1

end Resize

/-! ## Analysis formatting and validation

Models of the coordinate selection in formatAnalysisForIPFS
(format-analysis.ts, lines 119-122) and of validateIPFSData
(create-proposal.action.ts, lines 403-440).  JavaScript or-chains treat
undefined and 0 as falsy. -/

namespace FormatAnalysis

/-- JavaScript a || b over optional numbers: undefined and 0 are falsy. -/
def jsNumOrElse (a b : Option Int) : Option Int :=
  match a with
  | some x => if x = 0 then b else some x
  | none => b

/-- Final || 0 of an or-chain over optional numbers. -/
def jsNumOrZero (a : Option Int) : Int :=
  match a with
  | some x => x
  | none => 0

/-- Coordinate sources available to formatAnalysisForIPFS: the flattened
metadata fields, the metadata gps object, and the contextual-data location. -/
structure CoordSources where
  metaLat : Option Int
  metaLng : Option Int
  gpsLat : Option Int
  gpsLng : Option Int
  ctxLat : Option Int
  ctxLng : Option Int
  deriving DecidableEq, Repr

/-- Coordinate selection of formatAnalysisForIPFS, lines 119-122:
metadata.latitude || metadata.gps.latitude || contextual coordinates || 0,
and the same for longitude.  The result is always a concrete number pair. -/
def formatCoordinates (s : CoordSources) : Int × Int :=
  (jsNumOrZero (jsNumOrElse s.metaLat (jsNumOrElse s.gpsLat s.ctxLat)),
   jsNumOrZero (jsNumOrElse s.metaLng (jsNumOrElse s.gpsLng s.ctxLng)))

/-- A JavaScript value as seen by the typeof checks of validateIPFSData. -/
inductive JSVal where
  | num (n : Int)
  | str (s : String)
  | missing
  deriving DecidableEq, Repr

/-- Coordinates object of the fetched IPFS record, before validation. -/
structure RawCoordinates where
  lat : JSVal
  lng : JSVal
  deriving DecidableEq, Repr

/-- Fields of the fetched IPFS record consulted by validateIPFSData. -/
structure RawData where
  timestamp : Option String
  coordinates : Option RawCoordinates
  description : Option String
  score : Option Int
  deriving DecidableEq, Repr

/-- Truthiness of an optional string (undefined and the empty string are
falsy). -/
def truthyStr (o : Option String) : Bool :=
  match o with
  | some s => s != ""
  | none => false

/-- Truthiness of an optional number (undefined and 0 are falsy). -/
def truthyNum (o : Option Int) : Bool :=
  match o with
  | some n => n != 0
  | none => false

/-- typeof v === number. -/
def isNumber (v : JSVal) : Bool :=
  match v with
  | .num _ => true
  | _ => false

/-- validateIPFSData of create-proposal.action.ts, lines 403-440: collects the
error messages; the data validates iff the list is empty.  Zero coordinates
pass the explicit typeof check (the source comment says: even if 0). -/
def validateIPFSData (d : RawData) : List String :=
  (if truthyStr d.timestamp then [] else ["Missing required field: metadata.timestamp"]) ++
  (match d.coordinates with
   | none => ["Missing required field: metadata.location.coordinates"]
   | some c =>
     if isNumber c.lat && isNumber c.lng then []
     else ["Invalid coordinates: lat and lng must be numbers"]) ++
  (if truthyStr d.description then [] else ["Missing required field: analysis.description"]) ++
  (if truthyNum d.score then [] else ["Missing required field: impactAssessment.score"])

end FormatAnalysis

/-! ## Proposal description: serializer and parser

The serializer is the description template shared by createProposal
(create-proposal.action.ts, lines 335-367) and createProposalFromIPFS; the
parser is parseProposalDescription of Voting.tsx (lines 68-159).  The document
is modelled both as its list of lines (the template emits lines; the parser
immediately splits on the newline) and as the joined string. -/

namespace Proposals

/-- Coordinates of the analysis record (integral values). -/
structure Coordinates where
  lat : Int
  lng : Int
  deriving DecidableEq, Repr

/-- metadata.location of the IPFSAnalysis interface. -/
structure LocationMeta where
  coordinates : Coordinates
  addressField : Option String
  city : Option String
  state : Option String
  country : Option String
  deriving DecidableEq, Repr

/-- context.weather of the IPFSAnalysis interface. -/
structure WeatherCtx where
  temperature : Option Int
  conditions : Option String
  deriving DecidableEq, Repr

/-- One related news article. -/
structure NewsArticle where
  title : String
  url : String
  deriving DecidableEq, Repr

/-- impactAssessment of the IPFSAnalysis interface. -/
structure ImpactAssessment where
  score : Nat
  category : String
  urgency : String
  estimatedImpact : String
  recommendedActions : List String
  deriving DecidableEq, Repr

/-- Fields of the validated IPFS analysis record that the serializer reads. -/
structure IPFSAnalysis where
  timestamp : String
  location : LocationMeta
  description : String
  categories : List String
  confidence : Nat
  weather : Option WeatherCtx
  news : Option (List NewsArticle)
  impact : ImpactAssessment
  deriving DecidableEq, Repr

/-- JavaScript [city, state, country].filter(Boolean): drops undefined and
empty strings. -/
def jsFilterTruthy (l : List (Option String)) : List String :=
  (l.filterMap id).filter fun s => s != ""

/-- Location string of the template: truthy parts joined with a comma and a
space. -/
def locationString (loc : LocationMeta) : String :=
  String.intercalate ", " (jsFilterTruthy [loc.city, loc.state, loc.country])

/-- conditions || N/A of the weather line (undefined and the empty string are
falsy). -/
def weatherConditionsText (w : Option WeatherCtx) : String :=
  match w with
  | some ww =>
    match ww.conditions with
    | some c => if c = "" then "N/A" else c
    | none => "N/A"
  | none => "N/A"

/-- temperature || N/A of the weather line (undefined and 0 are falsy, so a
temperature of exactly 0 also prints N/A). -/
def weatherTemperatureText (w : Option WeatherCtx) : String :=
  match w with
  | some ww =>
    match ww.temperature with
    | some t => if t = 0 then "N/A" else toString t
    | none => "N/A"
  | none => "N/A"

/-- Lines produced by a join(newline) interpolation standing on its own
template line: an empty list still occupies one (empty) line. -/
def joinLines (l : List String) : List String :=
  if l.isEmpty then [""] else l

/-- Lines contributed by the conditional news interpolation between the
weather line and the Estimated Impact heading (empty-string branch when the
record has no relevantArticles array). -/
def newsSegment (news : Option (List NewsArticle)) : List String :=
  match news with
  | none => ["", ""]
  | some arts =>
    ["", "Recent Related News:"] ++
      joinLines ((arts.take 2).map fun a => "- " ++ a.title) ++ [""]

/-- Lines of the proposal description template of createProposal
(create-proposal.action.ts, lines 335-367), after the surrounding trim; free
text fields (description, estimated impact, action items, news titles) are
modelled as single lines. -/
def proposalDescriptionLines (d : IPFSAnalysis) (cid : String) : List String :=
  ["Impact Initiative Proposal",
   "",
   "Location: " ++ locationString d.location,
   "Coordinates: " ++ toString d.location.coordinates.lat ++ ", " ++
     toString d.location.coordinates.lng,
   "Impact Score: " ++ toString d.impact.score,
   "Urgency: " ++ d.impact.urgency,
   "Category: " ++ d.impact.category,
   "Verification Status: Verified via IPFS (CID: " ++ cid ++ ")",
   "",
   "Description:",
   d.description,
   "",
   "Current Conditions:",
   "- Weather: " ++ weatherConditionsText d.weather ++ " (" ++
     weatherTemperatureText d.weather ++ "°C)"] ++
  newsSegment d.news ++
  ["Estimated Impact:",
   d.impact.estimatedImpact,
   "",
   "Recommended Actions:"] ++
  joinLines (d.impact.recommendedActions.map fun a => "- " ++ a) ++
  ["",
   "Evidence:",
   "- Full Analysis: https://gateway.pinata.cloud/ipfs/" ++ cid,
   "- Confidence Score: " ++ toString d.confidence ++ "%",
   "",
   "Verification Details:",
   "This proposal has been automatically generated from verified IPFS data. ",
   "All information has been cryptographically secured and can be independently verified."]

/-- The emitted description text: the template lines joined by newlines. -/
def proposalDescription (d : IPFSAnalysis) (cid : String) : String :=
  joinNL (proposalDescriptionLines d cid)

/-! Parser (parseProposalDescription of Voting.tsx). -/

/-- isValidValue of Voting.tsx, lines 73-77: rejects undefined, the empty
string, and any value whose lowercase form contains n/a or not available. -/
def isValidValue (v : Option String) : Bool :=
  match v with
  | none => false
  | some s =>
    if s = "" then false
    else !jsIncludes "n/a" (jsToLower s) && !jsIncludes "not available" (jsToLower s)

/-- lines.find(startsWith label)?.split(label)[1]?.trim() || empty. -/
def labelValue (label : String) (lines : List String) : String :=
  match lines.find? (fun l => jsStartsWith label l) with
  | none => ""
  | some l =>
    match (jsSplit label l)[1]? with
    | none => ""
    | some v => jsTrim v

/-- lines.find(includes label)?.split(label)[1]?.trim() || empty. -/
def labelValueIncl (label : String) (lines : List String) : String :=
  match lines.find? (fun l => jsIncludes label l) with
  | none => ""
  | some l =>
    match (jsSplit label l)[1]? with
    | none => ""
    | some v => jsTrim v

/-- Coordinates extraction, Voting.tsx lines 81-85: undefined when the line is
missing or its value empty; otherwise parse the comma parts (a missing second
part parses to NaN). -/
def coordinatesVal (lines : List String) : Option (Option Int × Option Int) :=
  match ((lines.find? (fun l => jsStartsWith "Coordinates:" l)).bind
          fun l => (jsSplit "Coordinates:" l)[1]?).map jsTrim with
  | none => none
  | some cl =>
    if cl = "" then none
    else
      let parts := jsSplit "," cl
      some (jsParseFloat (parts.getD 0 ""),
            match parts[1]? with
            | some t => jsParseFloat t
            | none => none)

/-- Impact score extraction, Voting.tsx line 88: parseInt of the label value,
with a default text of 0. -/
def impactScoreVal (lines : List String) : Option Int :=
  let s := labelValue "Impact Score:" lines
  jsParseInt (if s = "" then "0" else s)

/-- extractContent of Voting.tsx, lines 162-174: the lines strictly between
the start label and the first following end label, joined and trimmed. -/
def extractContent (lines : List String) (startLabel : String)
    (endLabels : List String) : String :=
  match (lines.enum.find? fun pr => jsStartsWith startLabel pr.2).map Prod.fst with
  | none => ""
  | some si =>
    match (lines.enum.find? fun pr =>
            decide (pr.1 > si) && endLabels.any fun lab => jsStartsWith lab pr.2).map Prod.fst with
    | none => jsTrim (String.intercalate "\n" (lines.drop (si + 1)))
    | some ei => jsTrim (String.intercalate "\n" ((lines.take ei).drop (si + 1)))

/-- JavaScript a || b over optional strings (undefined and empty falsy). -/
def jsOrStr (a b : Option String) : Option String :=
  match a with
  | some s => if s = "" then b else some s
  | none => b

/-- Truthiness of an optional string. -/
def jsTruthyStr (o : Option String) : Bool :=
  match o with
  | some s => s != ""
  | none => false

/-- Everything after the first occurrence of sep, undefined when sep does not
occur. -/
def afterFirst (sep s : String) : Option String :=
  match jsSplit sep s with
  | [] => none
  | [_] => none
  | _ :: rest => some (String.intercalate sep rest)

/-- weatherLine?.match(open-paren lazy group close-paren)?.[1]: the text
between the first opening parenthesis and the first closing parenthesis after
it, when both exist. -/
def weatherParenMatch (w : Option String) : Option String :=
  w.bind fun s =>
    (afterFirst "(" s).bind fun t =>
      if jsIncludes ")" t then (jsSplit ")" t)[0]? else none

/-- Weather line value, Voting.tsx line 97. -/
def weatherLineVal (lines : List String) : Option String :=
  ((lines.find? (fun l => jsIncludes "Weather:" l)).bind
    fun l => (jsSplit "Weather:" l)[1]?).map jsTrim

/-- Temperature line value, Voting.tsx line 98. -/
def temperatureLineVal (lines : List String) : Option String :=
  ((lines.find? (fun l => jsIncludes "Temperature:" l)).bind
    fun l => (jsSplit "Temperature:" l)[1]?).map jsTrim

/-- currentConditions extraction, Voting.tsx lines 99-103. -/
def currentConditionsVal (lines : List String) :
    Option (Option String × Option String) :=
  let wl := weatherLineVal lines
  let tl := temperatureLineVal lines
  if jsTruthyStr wl || jsTruthyStr tl then
    let wcand := wl.map fun s => jsTrim ((jsSplit "(" s).getD 0 "")
    let tcand := jsOrStr tl (weatherParenMatch wl)
    some (if isValidValue wcand then wcand else none,
          if isValidValue tcand then tcand else none)
  else none

/-- recommendedActions extraction, Voting.tsx lines 109-116: the dash lines
between the Recommended Actions heading and the next Evidence or Verification
Details heading, dash stripped, trimmed, with N/A-like items dropped. -/
def recommendedActionsVal (lines : List String) : Option (List String) :=
  match (lines.enum.find? fun pr => jsStartsWith "Recommended Actions:" pr.2).map Prod.fst with
  | none => none
  | some si =>
    let ei := (lines.enum.find? fun pr =>
      decide (pr.1 > si) &&
        (jsStartsWith "Evidence:" pr.2 || jsStartsWith "Verification Details:" pr.2)).map Prod.fst
    let seg := match ei with
      | some e => (lines.take e).drop (si + 1)
      | none => lines.drop (si + 1)
    some ((((seg.filter fun l => jsStartsWith "-" l).map
              fun l => jsTrim (jsSubstringFrom 1 l)).filter
            fun s => isValidValue (some s)))

/-- Confidence extraction, Voting.tsx line 120: label value with the first
percent sign removed, default text 0, parseInt. -/
def jsReplaceFirst (pat rep s : String) : String :=
  match jsSplit pat s with
  | [] => s
  | [_] => s
  | h :: rest => h ++ rep ++ String.intercalate pat rest

/-- Parsed confidence value (none models NaN). -/
def confidenceVal (lines : List String) : Option Int :=
  let raw := match lines.find? (fun l => jsIncludes "Confidence Score:" l) with
    | none => none
    | some l => ((jsSplit "Confidence Score:" l)[1]?).map
        fun v => jsTrim (jsReplaceFirst "%" "" v)
  jsParseInt (match raw with
    | some s => if s = "" then "0" else s
    | none => "0")

/-- News extraction, Voting.tsx lines 124-134. -/
def newsVal (lines : List String) : Option (List NewsArticle) :=
  match (lines.enum.find? fun pr => jsIncludes "Recent Related News:" pr.2).map Prod.fst with
  | none => none
  | some si =>
    let ei := (lines.enum.find? fun pr =>
      decide (pr.1 > si) &&
        (jsStartsWith "Estimated Impact:" pr.2 || jsStartsWith "Recommended Actions:" pr.2)).map Prod.fst
    let seg := match ei with
      | some e => (lines.take e).drop (si + 1)
      | none => lines.drop (si + 1)
    some (((seg.filter fun l => jsStartsWith "-" l).map
            fun l => jsTrim (jsSubstringFrom 1 l)).filterMap
          fun title => if isValidValue (some title) then
            some { title := title, url := "" } else none)

/-- Result structure of parseProposalDescription (the parsedData field of a
Proposal in Voting.tsx).  The parser extracts no urgency and no category:
the structure has no such fields. -/
structure ParsedData where
  location : String
  coordinates : Option (Option Int × Option Int)
  impactScore : Option Int
  verificationStatus : String
  descriptionText : Option String
  verificationDetails : Option String
  proposedAction : Option String
  currentConditions : Option (Option String × Option String)
  estimatedImpact : Option String
  recommendedActions : Option (List String)
  mediaAnalysis : Option String
  verificationReport : String
  ipfsCID : Option String
  confidence : Option Int
  news : Option (List NewsArticle)
  deriving DecidableEq, Repr

/-- Body of parseProposalDescription over the trimmed lines. -/
def parseLines (lines : List String) : ParsedData :=
  let location := labelValue "Location:" lines
  let coordinates := coordinatesVal lines
  let impactScore := impactScoreVal lines
  let verificationStatus := labelValueIncl "Verification Status:" lines
  let description := extractContent lines "Description:"
    ["Current Conditions:", "Estimated Impact:", "Recommended Actions:"]
  let verificationDetails := extractContent lines "Verification Details:"
    ["Evidence:", "Description:", "Current Conditions:"]
  let proposedAction := extractContent lines "Proposed Action:"
    ["Evidence:", "Description:", "Verification Details:"]
  let currentConditions := currentConditionsVal lines
  let estimatedImpact := extractContent lines "Estimated Impact:"
    ["Recommended Actions:", "Evidence:"]
  let recommendedActions := recommendedActionsVal lines
  let mediaAnalysis := labelValueIncl "Full Analysis:" lines
  let confidence := confidenceVal lines
  let ipfsCID := (jsSplit "/" mediaAnalysis).getLast?
  let news := newsVal lines
  { location := location
    coordinates := coordinates
    impactScore := impactScore
    verificationStatus := verificationStatus
    descriptionText := if isValidValue (some description) then some description else none
    verificationDetails :=
      if isValidValue (some verificationDetails) then some verificationDetails else none
    proposedAction := if isValidValue (some proposedAction) then some proposedAction else none
    currentConditions := match currentConditions with
      | some (w, t) => if jsTruthyStr w || jsTruthyStr t then some (w, t) else none
      | none => none
    estimatedImpact :=
      if isValidValue (some estimatedImpact) then some estimatedImpact else none
    recommendedActions := match recommendedActions with
      | some acts => if acts.isEmpty then none else some acts
      | none => none
    mediaAnalysis := if isValidValue (some mediaAnalysis) then some mediaAnalysis else none
    verificationReport := ""
    ipfsCID := ipfsCID
    confidence := match confidence with
      | some n => if n = 0 then none else some n
      | none => none
    news := match news with
      | some arts => if arts.isEmpty then none else some arts
      | none => none }

/-- parseProposalDescription of Voting.tsx: split the description on newlines,
trim every line, then extract the fields. -/
def parseProposalDescription (s : String) : ParsedData :=
  parseLines ((jsSplit "\n" s).map jsTrim)

/-- The description lines without their final two fixed sentences.  The
penultimate template line carries a trailing space in the source, so it is the
only line not stable under the parser's per-line trim; splitting it off lets
the trimmed document be described exactly. -/
def proposalDescFront (d : IPFSAnalysis) (cid : String) : List String :=
  ["Impact Initiative Proposal",
   "",
   "Location: " ++ locationString d.location,
   "Coordinates: " ++ toString d.location.coordinates.lat ++ ", " ++
     toString d.location.coordinates.lng,
   "Impact Score: " ++ toString d.impact.score,
   "Urgency: " ++ d.impact.urgency,
   "Category: " ++ d.impact.category,
   "Verification Status: Verified via IPFS (CID: " ++ cid ++ ")",
   "",
   "Description:",
   d.description,
   "",
   "Current Conditions:",
   "- Weather: " ++ weatherConditionsText d.weather ++ " (" ++
     weatherTemperatureText d.weather ++ "°C)"] ++
  newsSegment d.news ++
  ["Estimated Impact:",
   d.impact.estimatedImpact,
   "",
   "Recommended Actions:"] ++
  joinLines (d.impact.recommendedActions.map fun a => "- " ++ a) ++
  ["",
   "Evidence:",
   "- Full Analysis: https://gateway.pinata.cloud/ipfs/" ++ cid,
   "- Confidence Score: " ++ toString d.confidence ++ "%",
   "",
   "Verification Details:"]

/-- The description lines as the parser sees them after its per-line trim,
assuming every other line is trim-stable: identical to
proposalDescriptionLines except that the trailing space of the penultimate
fixed line is gone. -/
def proposalDescTrimmed (d : IPFSAnalysis) (cid : String) : List String :=
  proposalDescFront d cid ++
  ["This proposal has been automatically generated from verified IPFS data.",
   "All information has been cryptographically secured and can be independently verified."]

/-- Well-formedness of an analysis record with respect to the description
format: every emitted line is newline-free, every line except the two fixed
closing sentences is stable under trimming (the penultimate template line has
a trailing space in the source and can never be trim-stable), no line
smuggles in the weather or temperature labels, the location string is trimmed
and does not contain its own label, the free-text fields do not open with the
Recommended Actions heading, and the action list is non-empty with trimmed
items that the parser does not discard as N/A-like. -/
def wellFormedDoc (d : IPFSAnalysis) (cid : String) : Bool :=
  let lines := proposalDescriptionLines d cid
  let loc := locationString d.location
  lines.all (fun l => !jsIncludes "\n" l) &&
  lines.dropLast.dropLast.all (fun l => jsTrim l == l) &&
  lines.all (fun l => !jsIncludes "Temperature:" l) &&
  (lines.take 13).all (fun l => !jsIncludes "Weather:" l) &&
  (jsTrim loc == loc) && !jsIncludes "Location:" loc &&
  !jsStartsWith "Recommended Actions:" d.description &&
  !jsStartsWith "Recommended Actions:" d.impact.estimatedImpact &&
  d.impact.recommendedActions.all (fun a => jsTrim a == a && isValidValue (some a)) &&
  !d.impact.recommendedActions.isEmpty

end Proposals

/-! ## Lemmas about the string primitives -/

theorem chSplitF_ne_nil (kw : Char) (ks : List Char) (fuel : Nat) (l : List Char) :
    chSplitF kw ks fuel l ≠ [] := by
  induction fuel generalizing l with
  | zero => cases l <;> simp [chSplitF]
  | succ n ih =>
    cases l with
    | nil => simp [chSplitF]
    | cons a as =>
      simp only [chSplitF]
      split
      · simp
      · split
        · simp
        · simp

theorem isPrefixOf_append_of_le (p a x : List Char) (h : p.length ≤ a.length) :
    p.isPrefixOf (a ++ x) = p.isPrefixOf a := by
  induction p generalizing a with
  | nil => simp
  | cons pc ps ih =>
    cases a with
    | nil => simp at h
    | cons ac as =>
      simp only [List.cons_append, List.isPrefixOf_cons₂]
      rw [ih as (by simpa using h)]

theorem isPrefixOf_append_of_false (p a x : List Char)
    (h1 : p.isPrefixOf a = false) (h2 : a.isPrefixOf p = false) :
    p.isPrefixOf (a ++ x) = false := by
  by_contra hc
  have hp : p <+: a ++ x := by
    have := Bool.not_eq_false _ |>.mp hc
    exact List.isPrefixOf_iff_prefix.mp this
  have ha : a <+: a ++ x := List.prefix_append a x
  rcases List.prefix_or_prefix_of_prefix hp ha with h | h
  · rw [(List.isPrefixOf_iff_prefix).mpr h] at h1; exact Bool.noConfusion h1
  · rw [(List.isPrefixOf_iff_prefix).mpr h] at h2; exact Bool.noConfusion h2

theorem not_infix_of_cons_drop (kw : Char) (ks : List Char) (a : Char) (as : List Char)
    (h : ¬ (kw :: ks) <:+: (a :: as)) : ¬ (kw :: ks) <:+: as := by
  intro hinf
  exact h (hinf.trans (List.suffix_cons a as).isInfix)

theorem chSplitF_no_sep (kw : Char) (ks : List Char) :
    ∀ (fuel : Nat) (l : List Char), l.length ≤ fuel → ¬ (kw :: ks) <:+: l →
    chSplitF kw ks fuel l = [l] := by
  intro fuel
  induction fuel with
  | zero =>
    intro l hl _
    cases l <;> simp_all [chSplitF]
  | succ n ih =>
    intro l hl hinf
    cases l with
    | nil => simp [chSplitF]
    | cons a as =>
      have hpre : (kw :: ks).isPrefixOf (a :: as) = false := by
        by_contra hc
        have := Bool.not_eq_false _ |>.mp hc
        exact hinf (List.isPrefixOf_iff_prefix.mp this).isInfix
      have has : chSplitF kw ks n as = [as] := by
        apply ih as (by simpa using hl)
        exact not_infix_of_cons_drop kw ks a as hinf
      simp [chSplitF, hpre, has]

theorem chSplit_no_sep (kw : Char) (ks : List Char) (l : List Char)
    (h : ¬ (kw :: ks) <:+: l) : chSplit kw ks l = [l] :=
  chSplitF_no_sep kw ks l.length l le_rfl h

theorem chSplitF_nil (kw : Char) (ks : List Char) (fuel : Nat) :
    chSplitF kw ks fuel [] = [[]] := by
  cases fuel <;> rfl

theorem chSplitF_fuel (kw : Char) (ks : List Char) :
    ∀ (f1 : Nat) (f2 : Nat) (l : List Char), l.length ≤ f1 → l.length ≤ f2 →
    chSplitF kw ks f1 l = chSplitF kw ks f2 l := by
  intro f1
  induction f1 with
  | zero =>
    intro f2 l h1 _
    have : l = [] := List.length_eq_zero.mp (Nat.le_zero.mp h1)
    subst this
    simp [chSplitF_nil]
  | succ n ih =>
    intro f2 l h1 h2
    cases l with
    | nil => simp [chSplitF_nil]
    | cons a as =>
      cases f2 with
      | zero => simp at h2
      | succ m =>
        simp only [chSplitF]
        have hlen1 : as.length ≤ n := by simpa using h1
        have hlen2 : as.length ≤ m := by simpa using h2
        have hd1 : (as.drop ks.length).length ≤ n :=
          le_trans (by rw [List.length_drop]; omega) hlen1
        have hd2 : (as.drop ks.length).length ≤ m :=
          le_trans (by rw [List.length_drop]; omega) hlen2
        rw [ih m (as.drop ks.length) hd1 hd2, ih m as hlen1 hlen2]

/-- Splitting a string of the form sep ++ rest where rest does not contain the
separator yields exactly two parts: the empty string and rest. -/
theorem chSplit_sep_head (kw : Char) (ks : List Char) (rest : List Char)
    (h : ¬ (kw :: ks) <:+: rest) :
    chSplit kw ks ((kw :: ks) ++ rest) = [[], rest] := by
  have hpre : (kw :: ks).isPrefixOf (kw :: (ks ++ rest)) = true := by
    rw [show kw :: (ks ++ rest) = (kw :: ks) ++ rest from rfl]
    exact List.isPrefixOf_iff_prefix.mpr (List.prefix_append _ _)
  have hdrop : (ks ++ rest).drop ks.length = rest := List.drop_left ks rest
  have hlen : ((kw :: ks) ++ rest).length = (ks.length + rest.length) + 1 := by
    simp [List.length_append]
  rw [chSplit, hlen]
  show chSplitF kw ks ((ks.length + rest.length) + 1) (kw :: (ks ++ rest)) = _
  rw [chSplitF, if_pos hpre, hdrop,
    chSplitF_fuel kw ks (ks.length + rest.length) rest.length rest (by omega) le_rfl,
    chSplitF_no_sep kw ks rest.length rest le_rfl h]

theorem chTrim_cons_space (l : List Char) : chTrim (' ' :: l) = chTrim l := by
  simp [chTrim, List.dropWhile_cons]

theorem chSplit_ne_nil (kw : Char) (ks : List Char) (l : List Char) :
    chSplit kw ks l ≠ [] :=
  chSplitF_ne_nil kw ks l.length l

theorem chSplit_sep_append (kw : Char) (ks : List Char) (rest : List Char) :
    chSplit kw ks ((kw :: ks) ++ rest) = [] :: chSplit kw ks rest := by
  have hpre : (kw :: ks).isPrefixOf (kw :: (ks ++ rest)) = true := by
    rw [show kw :: (ks ++ rest) = (kw :: ks) ++ rest from rfl]
    exact List.isPrefixOf_iff_prefix.mpr (List.prefix_append _ _)
  have hdrop : (ks ++ rest).drop ks.length = rest := List.drop_left ks rest
  have hlen : ((kw :: ks) ++ rest).length = (ks.length + rest.length) + 1 := by
    simp [List.length_append]
  rw [chSplit, hlen]
  show chSplitF kw ks ((ks.length + rest.length) + 1) (kw :: (ks ++ rest)) = _
  rw [chSplitF, if_pos hpre, hdrop,
    chSplitF_fuel kw ks (ks.length + rest.length) rest.length rest (by omega) le_rfl]
  rfl

theorem chSplit_cons_skip (kw : Char) (ks : List Char) (c : Char)
    (l : List Char) (h : (kw :: ks).isPrefixOf (c :: l) = false) :
    chSplit kw ks (c :: l) =
      match chSplit kw ks l with
      | [] => [[c]]
      | h :: t => (c :: h) :: t := by
  rw [chSplit]
  show chSplitF kw ks (l.length + 1) (c :: l) = _
  rw [chSplitF, if_neg (by simp [h])]
  rfl

theorem infix_head_mem (kw : Char) (ks : List Char) (l : List Char)
    (h : (kw :: ks) <:+: l) : kw ∈ l := by
  obtain ⟨s, t, hst⟩ := h
  subst hst
  simp

theorem chSplit_length_ge_two (kw : Char) (ks : List Char) :
    ∀ (l : List Char), (kw :: ks) <:+: l → 2 ≤ (chSplit kw ks l).length := by
  intro l
  induction l with
  | nil =>
    intro h
    simp at h
  | cons c l ih =>
    intro h
    cases hpre : (kw :: ks).isPrefixOf (c :: l) with
    | true =>
      rw [chSplit]
      show 2 ≤ (chSplitF kw ks (l.length + 1) (c :: l)).length
      rw [chSplitF, if_pos hpre]
      have := chSplitF_ne_nil kw ks l.length (l.drop ks.length)
      cases hr : chSplitF kw ks l.length (l.drop ks.length) with
      | nil => exact absurd hr this
      | cons a b => simp
    | false =>
      have hinf : (kw :: ks) <:+: l := by
        rcases List.infix_cons_iff.mp h with hp | hi
        · exact absurd (List.isPrefixOf_iff_prefix.mpr hp) (by simp [hpre])
        · exact hi
      have h2 := ih hinf
      rw [chSplit_cons_skip kw ks c l hpre]
      cases hr : chSplit kw ks l with
      | nil => exact absurd hr (chSplit_ne_nil kw ks l)
      | cons a b =>
        rw [hr] at h2
        simp at h2 ⊢
        omega

theorem jsIncludes_false_iff (pat s : String) (kw : Char) (ks : List Char)
    (hp : pat.data = kw :: ks) :
    jsIncludes pat s = false ↔ ¬ ((kw :: ks) <:+: s.data) := by
  unfold jsIncludes
  rw [hp]
  simp only [bne_eq_false_iff_eq]
  constructor
  · intro h1 hinf
    have := chSplit_length_ge_two kw ks s.data hinf
    omega
  · intro hni
    rw [chSplit_no_sep kw ks s.data hni]
    rfl

theorem not_infix_append_left (kw : Char) (ks : List Char) (a b : List Char)
    (hmem : kw ∉ a) (hb : ¬ (kw :: ks) <:+: b) : ¬ (kw :: ks) <:+: (a ++ b) := by
  induction a with
  | nil => simpa using hb
  | cons c a ih =>
    intro h
    rcases List.infix_cons_iff.mp h with hp | hi
    · obtain ⟨t2, ht⟩ := hp
      have hkc : kw = c := by
        have := congrArg List.head? ht
        simpa using this
      exact hmem (hkc ▸ List.mem_cons_self _ _)
    · exact ih (fun hm => hmem (List.mem_cons_of_mem _ hm)) hi

theorem infix_singleton_iff (c : Char) (l : List Char) :
    ([c] <:+: l) ↔ c ∈ l := by
  constructor
  · exact fun h => infix_head_mem c [] l h
  · intro h
    obtain ⟨s, t, hst⟩ := List.append_of_mem h
    exact ⟨s, t, by rw [hst]; simp⟩

theorem jsSplit_label (label rest : String) (kw : Char) (ks : List Char)
    (hl : label.data = kw :: ks) (hni : ¬ ((kw :: ks) <:+: rest.data)) :
    jsSplit label (label ++ rest) = ["", rest] := by
  unfold jsSplit
  rw [hl]
  show (chSplit kw ks (label ++ rest).data).map String.mk = _
  rw [String.data_append, hl, chSplit_sep_head kw ks rest.data hni]
  rfl

theorem chSplit_append_sep_single (kw : Char) (a rest : List Char)
    (ha : kw ∉ a) : chSplit kw [] (a ++ kw :: rest) = a :: chSplit kw [] rest := by
  induction a with
  | nil => exact chSplit_sep_append kw [] rest
  | cons c a ih =>
    have hni : (kw :: []).isPrefixOf (c :: (a ++ kw :: rest)) = false := by
      simp only [List.isPrefixOf_cons₂, List.isPrefixOf_nil_left, Bool.and_true]
      exact beq_eq_false_iff_ne.mpr fun h => ha (h ▸ List.mem_cons_self _ _)
    rw [List.cons_append, chSplit_cons_skip kw [] c _ hni,
      ih (fun hm => ha (List.mem_cons_of_mem _ hm))]

theorem dropWhile_eq_self_of_head (p : Char → Bool) (l : List Char)
    (h : ∀ c ∈ l, p c = false) : l.dropWhile p = l := by
  cases l with
  | nil => rfl
  | cons c cs => exact List.dropWhile_cons_of_neg (by simp [h c (by simp)])

theorem chTrim_of_no_ws (l : List Char)
    (h : ∀ c ∈ l, c.isWhitespace = false) : chTrim l = l := by
  unfold chTrim
  rw [dropWhile_eq_self_of_head _ l h,
    dropWhile_eq_self_of_head _ l.reverse (fun c hc => h c (List.mem_reverse.mp hc)),
    List.reverse_reverse]

theorem jsTrim_eq_self_iff (x : String) : jsTrim x = x ↔ chTrim x.data = x.data := by
  constructor
  · intro h
    exact congrArg String.data h
  · intro h
    unfold jsTrim
    exact congrArg String.mk h

theorem jsSplit_joinNL (lines : List String) (hne : lines ≠ [])
    (h : ∀ l ∈ lines, '\n' ∉ l.data) :
    jsSplit "\n" (joinNL lines) = lines := by
  induction lines with
  | nil => exact absurd rfl hne
  | cons x rest ih =>
    cases rest with
    | nil =>
      show (chSplit '\n' [] (joinNL [x]).data).map String.mk = [x]
      rw [show joinNL [x] = x from rfl,
        chSplit_no_sep '\n' [] x.data
          (fun hinf => h x (by simp) ((infix_singleton_iff '\n' x.data).mp hinf))]
      rfl
    | cons y t =>
      show (chSplit '\n' [] (joinNL (x :: y :: t)).data).map String.mk = _
      rw [show joinNL (x :: y :: t) = x ++ "\n" ++ joinNL (y :: t) from rfl]
      have hdata : (x ++ "\n" ++ joinNL (y :: t)).data =
          x.data ++ '\n' :: (joinNL (y :: t)).data := by
        simp [String.data_append]
      rw [hdata, chSplit_append_sep_single '\n' x.data _ (h x (by simp))]
      have h2 : (chSplit '\n' [] (joinNL (y :: t)).data).map String.mk = y :: t :=
        ih (by simp) (fun l hl => h l (List.mem_cons_of_mem _ hl))
      show String.mk x.data ::
        (chSplit '\n' [] (joinNL (y :: t)).data).map String.mk = _
      rw [h2]

/-! Decimal representations: the digits of Nat.repr parse back to the same
number through the parseInt model. -/

theorem digitChar_spec (m : Nat) (h : m < 10) :
    (Nat.digitChar m).isDigit = true ∧
    (Nat.digitChar m).isWhitespace = false ∧
    (Nat.digitChar m).toNat - 48 = m ∧
    Nat.digitChar m ≠ '-' ∧ Nat.digitChar m ≠ '+' := by
  interval_cases m <;> exact ⟨by decide, by decide, by decide, by decide, by decide⟩

theorem toDigitsCore_acc (fuel : Nat) :
    ∀ (n : Nat) (acc : List Char),
    Nat.toDigitsCore 10 fuel n acc = Nat.toDigitsCore 10 fuel n [] ++ acc := by
  induction fuel with
  | zero => intro n acc; rfl
  | succ f ih =>
    intro n acc
    simp only [Nat.toDigitsCore]
    split_ifs with h
    · rfl
    · rw [ih (n / 10) [Nat.digitChar (n % 10)], ih (n / 10) (Nat.digitChar (n % 10) :: acc),
        List.append_assoc]
      rfl

theorem toDigits_ne_nil (fuel n : Nat) :
    Nat.toDigitsCore 10 (fuel + 1) n [] ≠ [] := by
  simp only [Nat.toDigitsCore]
  split_ifs with h
  · simp
  · rw [toDigitsCore_acc]
    simp

theorem toDigits_mem_spec (fuel : Nat) :
    ∀ (n : Nat) (c : Char), c ∈ Nat.toDigitsCore 10 fuel n [] →
    ∃ m, m < 10 ∧ c = Nat.digitChar m := by
  induction fuel with
  | zero => intro n c hc; simp [Nat.toDigitsCore] at hc
  | succ f ih =>
    intro n c hc
    simp only [Nat.toDigitsCore] at hc
    split_ifs at hc with h
    · simp at hc
      exact ⟨n % 10, Nat.mod_lt _ (by omega), hc⟩
    · rw [toDigitsCore_acc] at hc
      rcases List.mem_append.mp hc with hm | hm
      · exact ih (n / 10) c hm
      · simp at hm
        exact ⟨n % 10, Nat.mod_lt _ (by omega), hm⟩

theorem toDigits_foldl (fuel : Nat) :
    ∀ (n a : Nat), n < fuel →
    (Nat.toDigitsCore 10 fuel n []).foldl
      (fun acc c => 10 * acc + (c.toNat - 48)) a =
      a * 10 ^ (Nat.toDigitsCore 10 fuel n []).length + n := by
  induction fuel with
  | zero => intro n a h; omega
  | succ f ih =>
    intro n a h
    simp only [Nat.toDigitsCore]
    split_ifs with hdiv
    · have hlt : n < 10 := by omega
      have hmod : n % 10 = n := Nat.mod_eq_of_lt hlt
      simp only [List.foldl_cons, List.foldl_nil, List.length_cons,
        List.length_nil, hmod]
      rw [(digitChar_spec n hlt).2.2.1]
      ring
    · have hn10 : 10 ≤ n := by
        by_contra hc
        exact hdiv (Nat.div_eq_of_lt (by omega))
      have hrec : n / 10 < f := by
        have h1 : n / 10 < n := Nat.div_lt_self (by omega) (by omega)
        omega
      rw [toDigitsCore_acc, List.foldl_append, ih (n / 10) a hrec]
      simp only [List.foldl_cons, List.foldl_nil, List.length_append,
        List.length_cons, List.length_nil]
      rw [(digitChar_spec (n % 10) (Nat.mod_lt _ (by omega))).2.2.1]
      have hpow : 10 ^ ((Nat.toDigitsCore 10 f (n / 10) []).length + (0 + 1)) =
          10 ^ (Nat.toDigitsCore 10 f (n / 10) []).length * 10 := by
        rw [Nat.pow_succ]
      rw [hpow]
      have := Nat.div_add_mod n 10
      ring_nf
      omega

theorem takeWhile_eq_self_of (p : Char → Bool) (l : List Char)
    (h : ∀ c ∈ l, p c = true) : l.takeWhile p = l := by
  induction l with
  | nil => rfl
  | cons c cs ih =>
    rw [List.takeWhile_cons_of_pos (h c (by simp)),
      ih fun c hc => h c (List.mem_cons_of_mem _ hc)]

theorem natRepr_data (n : Nat) :
    (Nat.repr n).data = Nat.toDigitsCore 10 (n + 1) n [] :=
  rfl

theorem natRepr_chars (n : Nat) (c : Char) (hc : c ∈ (Nat.repr n).data) :
    ∃ m, m < 10 ∧ c = Nat.digitChar m :=
  toDigits_mem_spec (n + 1) n c (natRepr_data n ▸ hc)

theorem natRepr_ne_nil (n : Nat) : (Nat.repr n).data ≠ [] :=
  natRepr_data n ▸ toDigits_ne_nil n n

theorem natRepr_no_ws (n : Nat) :
    ∀ c ∈ (Nat.repr n).data, c.isWhitespace = false := by
  intro c hc
  obtain ⟨m, hm, rfl⟩ := natRepr_chars n c hc
  exact (digitChar_spec m hm).2.1

theorem jsParseInt_natRepr (n : Nat) : jsParseInt (Nat.repr n) = some (n : Int) := by
  unfold jsParseInt
  rw [dropWhile_eq_self_of_head _ _ (natRepr_no_ws n)]
  have hne := natRepr_ne_nil n
  cases hd : (Nat.repr n).data with
  | nil => exact absurd hd hne
  | cons c rest =>
    have hcmem : c ∈ (Nat.repr n).data := by rw [hd]; simp
    obtain ⟨m, hm, hcm⟩ := natRepr_chars n c hcmem
    dsimp only
    rw [if_neg (hcm ▸ (digitChar_spec m hm).2.2.2.1),
      if_neg (hcm ▸ (digitChar_spec m hm).2.2.2.2)]
    unfold parseDigitRun
    rw [show c :: rest = (Nat.repr n).data from hd.symm,
      takeWhile_eq_self_of _ _ (fun ch hch => by
        obtain ⟨m2, hm2, rfl⟩ := natRepr_chars n ch hch
        exact (digitChar_spec m2 hm2).1)]
    rw [if_neg (by simp [natRepr_ne_nil n])]
    rw [natRepr_data n, toDigits_foldl (n + 1) n 0 (by omega)]
    simp

theorem natRepr_trim (n : Nat) : chTrim (Nat.repr n).data = (Nat.repr n).data :=
  chTrim_of_no_ws _ (natRepr_no_ws n)

/-! Indexed searches over enumFrom, used by the action-list extraction. -/

theorem enumFrom_find?_none (q : String → Bool) :
    ∀ (n : Nat) (P : List String), (∀ l ∈ P, q l = false) →
    ((P.enumFrom n).find? fun pr => q pr.2) = none := by
  intro n P
  induction P generalizing n with
  | nil => intro _; rfl
  | cons a as ih =>
    intro h
    rw [List.enumFrom_cons, List.find?_cons_of_neg _ (by simp [h a (by simp)])]
    exact ih (n + 1) fun l hl => h l (List.mem_cons_of_mem _ hl)

theorem enumFrom_find?_le (q : String → Bool) (si : Nat) :
    ∀ (n : Nat) (P : List String), n + P.length ≤ si + 1 →
    ((P.enumFrom n).find? fun pr => decide (pr.1 > si) && q pr.2) = none := by
  intro n P
  induction P generalizing n with
  | nil => intro _; rfl
  | cons a as ih =>
    intro h
    rw [List.enumFrom_cons, List.find?_cons_of_neg _ (by
      simp only [Bool.and_eq_true, decide_eq_true_eq, not_and]
      intro hgt
      simp at h
      omega)]
    exact ih (n + 1) (by simp at h ⊢; omega)

theorem enumFrom_find?_gt (q : String → Bool) (si : Nat) :
    ∀ (n : Nat) (P : List String), si < n →
    ((P.enumFrom n).find? fun pr => decide (pr.1 > si) && q pr.2) =
      (P.enumFrom n).find? fun pr => q pr.2 := by
  intro n P
  induction P generalizing n with
  | nil => intro _; rfl
  | cons a as ih =>
    intro h
    rw [List.enumFrom_cons]
    cases hq : q a with
    | true =>
      rw [List.find?_cons_of_pos _ (by simp [hq]; omega),
        List.find?_cons_of_pos _ (by simp [hq])]
    | false =>
      rw [List.find?_cons_of_neg _ (by simp [hq]),
        List.find?_cons_of_neg _ (by simp [hq])]
      exact ih (n + 1) (by omega)

theorem recommendedActionsVal_segment (P acts S : List String)
    (hP : ∀ l ∈ P, jsStartsWith "Recommended Actions:" l = false)
    (hA : ∀ l ∈ acts, jsStartsWith "-" l = true ∧
      jsStartsWith "Evidence:" l = false ∧
      jsStartsWith "Verification Details:" l = false) :
    Proposals.recommendedActionsVal
      (P ++ "Recommended Actions:" :: (acts ++ "" :: "Evidence:" :: S)) =
      some ((acts.map fun l => jsTrim (jsSubstringFrom 1 l)).filter
        fun s => Proposals.isValidValue (some s)) := by
  set lines := P ++ "Recommended Actions:" :: (acts ++ "" :: "Evidence:" :: S)
    with hlines
  have hsi : ((lines.enum.find? fun pr =>
      jsStartsWith "Recommended Actions:" pr.2).map Prod.fst) = some P.length := by
    show (((P ++ _ :: _).enumFrom 0).find? _).map Prod.fst = _
    rw [List.enumFrom_append, List.find?_append,
      enumFrom_find?_none (fun l => jsStartsWith "Recommended Actions:" l) 0 P hP,
      List.enumFrom_cons, List.find?_cons_of_pos _ (by
        show jsStartsWith "Recommended Actions:" "Recommended Actions:" = true
        decide)]
    simp
  have hei : ((lines.enum.find? fun pr => decide (pr.1 > P.length) &&
      (jsStartsWith "Evidence:" pr.2 || jsStartsWith "Verification Details:" pr.2)).map
        Prod.fst) = some (P.length + acts.length + 2) := by
    show (((P ++ _ :: _).enumFrom 0).find? _).map Prod.fst = _
    rw [List.enumFrom_append, List.find?_append]
    have h1 : ((P.enumFrom 0).find? fun pr => decide (pr.1 > P.length) &&
        (jsStartsWith "Evidence:" pr.2 || jsStartsWith "Verification Details:" pr.2)) =
        none :=
      enumFrom_find?_le
        (fun l => jsStartsWith "Evidence:" l || jsStartsWith "Verification Details:" l)
        P.length 0 P (by omega)
    rw [h1, List.enumFrom_cons, List.find?_cons_of_neg _ (by simp)]
    have h2 : (((acts ++ "" :: "Evidence:" :: S).enumFrom (0 + P.length + 1)).find?
        fun pr => decide (pr.1 > P.length) &&
          (jsStartsWith "Evidence:" pr.2 || jsStartsWith "Verification Details:" pr.2)) =
        ((acts ++ "" :: "Evidence:" :: S).enumFrom (0 + P.length + 1)).find?
          fun pr => jsStartsWith "Evidence:" pr.2 || jsStartsWith "Verification Details:" pr.2 :=
      enumFrom_find?_gt
        (fun l => jsStartsWith "Evidence:" l || jsStartsWith "Verification Details:" l)
        P.length (0 + P.length + 1) (acts ++ "" :: "Evidence:" :: S) (by omega)
    rw [h2, List.enumFrom_append, List.find?_append,
      enumFrom_find?_none
        (fun l => jsStartsWith "Evidence:" l || jsStartsWith "Verification Details:" l)
        (0 + P.length + 1) acts
        (fun l hl => by simp [(hA l hl).2.1, (hA l hl).2.2]),
      List.enumFrom_cons, List.find?_cons_of_neg _ (by
        show ¬(jsStartsWith "Evidence:" "" || jsStartsWith "Verification Details:" "") = true
        decide),
      List.enumFrom_cons, List.find?_cons_of_pos _ (by
        show (jsStartsWith "Evidence:" "Evidence:" ||
          jsStartsWith "Verification Details:" "Evidence:") = true
        decide)]
    simp
    omega
  have hseg : ((lines.take (P.length + acts.length + 2)).drop (P.length + 1)) =
      acts ++ [""] := by
    rw [hlines, List.take_append_eq_append_take,
      List.take_of_length_le (by omega : P.length ≤ P.length + acts.length + 2),
      show P.length + acts.length + 2 - P.length = acts.length + 2 by omega,
      List.take_cons_succ, List.take_append_eq_append_take,
      List.take_of_length_le (by omega : acts.length ≤ acts.length + 1),
      show acts.length + 1 - acts.length = 1 by omega,
      show ("" :: "Evidence:" :: S).take 1 = [""] from rfl,
      List.drop_append_eq_append_drop,
      List.drop_of_length_le (by omega : P.length ≤ P.length + 1),
      show P.length + 1 - P.length = 1 by omega,
      List.drop_one]
    rfl
  unfold Proposals.recommendedActionsVal
  rw [hsi]
  dsimp only
  rw [hei]
  dsimp only
  rw [hseg, List.filter_append,
    List.filter_eq_self.mpr (fun a ha => (hA a ha).1),
    show List.filter (fun l => jsStartsWith "-" l) [""] = [] from rfl,
    List.append_nil]

/-! ## C2: the quorum invariant of executeProposal -/

/-- C2.  For every proposal and at every time, executeProposal never succeeds
unless forVotes strictly exceeds againstVotes and the current time is strictly
greater than the proposal deadline. -/
theorem claimC2_executeProposal_quorum (members : List Address) (sender : Address)
    (p : SimpleDAO.Proposal) (now : Nat) (p' : SimpleDAO.Proposal)
    (h : SimpleDAO.executeProposal members sender p now = .ok p') :
    p.forVotes > p.againstVotes ∧ now > p.deadline := by
  unfold SimpleDAO.executeProposal at h
  split_ifs at h <;> simp_all [not_not]

/-- Witness for C2 at a concrete state: a proposal with 3 for and 1 against,
executed one second after the deadline. -/
theorem claimC2_witness : (3 : Nat) > 1 ∧ (604801 : Nat) > 604800 :=
  claimC2_executeProposal_quorum [1] 1
    { description := "p", forVotes := 3, againstVotes := 1, deadline := 604800,
      executed := false, existsFlag := true, hasVoted := [1, 2, 3, 4] }
    604801
    { description := "p", forVotes := 3, againstVotes := 1, deadline := 604800,
      executed := true, existsFlag := true, hasVoted := [1, 2, 3, 4] }
    rfl

/-! ## C4: balance-weighted voting in TarsDAO -/

/-- C4.  A vote in TarsDAO succeeds only strictly before the deadline and only
if the member has not voted on that cause; the weight added to the approval or
disapproval tally is the member's current governance-token balance, and a
second vote by the same member (at any later time, balance, or side) fails
with the already-voted revert. -/
theorem claimC4_vote_weight (verifiers agents : List Address)
    (balanceOf : Address → Nat) (c : TarsDAO.Cause) (sender : Address)
    (support : Bool) (now : Nat) (c' : TarsDAO.Cause)
    (h : TarsDAO.vote verifiers agents balanceOf c sender support now = .ok c') :
    now < c.deadline ∧
    c.hasVoted.contains sender = false ∧
    (support = true →
      c'.approvalCount = c.approvalCount + balanceOf sender ∧
      c'.disapprovalCount = c.disapprovalCount) ∧
    (support = false →
      c'.disapprovalCount = c.disapprovalCount + balanceOf sender ∧
      c'.approvalCount = c.approvalCount) ∧
    (∀ (balanceOf2 : Address → Nat) (support2 : Bool) (now2 : Nat),
      TarsDAO.vote verifiers agents balanceOf2 c' sender support2 now2 =
        .error .alreadyVoted) := by
  unfold TarsDAO.vote at h
  split_ifs at h with h1 h2 h3 h4 h5 hs <;> simp only [Except.ok.injEq,
    reduceCtorEq] at h
  all_goals
    subst h
    refine ⟨h4, by simpa using h3, fun hsup => ?_, fun hsup => ?_,
      fun b2 s2 n2 => ?_⟩
  · exact ⟨rfl, rfl⟩
  · exact absurd hs (by simp [hsup])
  · unfold TarsDAO.vote
    simp [h1, h2]
    intro hnv
    rcases (by simpa using h1 : sender ∈ verifiers ∨ sender ∈ agents) with hv | ha
    · exact absurd hv hnv
    · exact ha
  · exact absurd hsup (by simp_all)
  · exact ⟨rfl, rfl⟩
  · unfold TarsDAO.vote
    simp [h1, h2]
    intro hnv
    rcases (by simpa using h1 : sender ∈ verifiers ∨ sender ∈ agents) with hv | ha
    · exact absurd hv hnv
    · exact ha

/-- Witness for C4 at a concrete state: the voter holds 100 tokens, so the
approval tally grows by 100, not by 1, and revoting fails. -/
theorem claimC4_witness :
    (5 : Nat) < 1000 ∧
    ([] : List Address).contains 9 = false ∧
    (true = true →
      (0 : Nat) + 100 = 0 + 100 ∧ (0 : Nat) = 0) ∧
    (true = false →
      (0 : Nat) = 0 + 100 ∧ (0 : Nat) + 100 = 0) ∧
    (∀ (balanceOf2 : Address → Nat) (support2 : Bool) (now2 : Nat),
      TarsDAO.vote [9] [] balanceOf2
        { imageHash := 0, description := "c", requestedAmount := 10, beneficiary := 7,
          verificationCount := 3, approvalCount := 0 + 100, disapprovalCount := 0,
          deadline := 1000, executed := false, existsFlag := true,
          hasVerified := [9], hasVoted := [9] }
        9 support2 now2 = .error .alreadyVoted) := by
  have := claimC4_vote_weight [9] [] (fun _ => 100)
    { imageHash := 0, description := "c", requestedAmount := 10, beneficiary := 7,
      verificationCount := 3, approvalCount := 0, disapprovalCount := 0,
      deadline := 1000, executed := false, existsFlag := true,
      hasVerified := [9], hasVoted := [] }
    9 true 5
    { imageHash := 0, description := "c", requestedAmount := 10, beneficiary := 7,
      verificationCount := 3, approvalCount := 0 + 100, disapprovalCount := 0,
      deadline := 1000, executed := false, existsFlag := true,
      hasVerified := [9], hasVoted := [9] }
    rfl
  exact this

/-! ## C5: executeCause success conditions and failure reasons -/

/-- C5 as stated is false: executeCause can succeed at the exact deadline
instant (its check is non-strict), a moment at which the specified derived
status passed (now strictly past the deadline) does not hold.  Concretely, a
verified cause with 5 approvals and 0 disapprovals executes at now = deadline
while passedSpec reports false. -/
theorem claimC5_counterexample :
    TarsDAO.executeCause
      { imageHash := 0, description := "c", requestedAmount := 10, beneficiary := 7,
        verificationCount := 3, approvalCount := 5, disapprovalCount := 0,
        deadline := 1000, executed := false, existsFlag := true,
        hasVerified := [1, 2, 3], hasVoted := [1, 2, 3] }
      1000 100 =
      .ok { cause := { imageHash := 0, description := "c", requestedAmount := 10,
                       beneficiary := 7, verificationCount := 3, approvalCount := 5,
                       disapprovalCount := 0, deadline := 1000, executed := true,
                       existsFlag := true, hasVerified := [1, 2, 3], hasVoted := [1, 2, 3] },
            paidTo := 7, amountPaid := 10, newBalance := 90 } ∧
    TarsDAO.passedSpec
      { imageHash := 0, description := "c", requestedAmount := 10, beneficiary := 7,
        verificationCount := 3, approvalCount := 5, disapprovalCount := 0,
        deadline := 1000, executed := false, existsFlag := true,
        hasVerified := [1, 2, 3], hasVoted := [1, 2, 3] }
      1000 = false :=
  ⟨rfl, rfl⟩

/-- C5 amended.  executeCause succeeds exactly when the cause exists, is not
yet executed, the deadline has been reached (non-strictly: execution at the
deadline instant is allowed), the verification threshold is met, approvals
strictly exceed disapprovals, and the contract balance covers the requested
amount; on success it marks the cause executed and transfers the requested
amount to the beneficiary; a vote shortfall and a balance shortfall fail with
the distinct vote-not-passed and insufficient-balance reverts, leaving the
cause unchanged. -/
theorem claimC5_executeCause (c : TarsDAO.Cause) (now bal : Nat) :
    (∀ r, TarsDAO.executeCause c now bal = .ok r →
      c.existsFlag = true ∧ c.executed = false ∧ now ≥ c.deadline ∧
      c.verificationCount ≥ TarsDAO.VERIFICATION_THRESHOLD ∧
      c.approvalCount > c.disapprovalCount ∧ bal ≥ c.requestedAmount ∧
      r.cause = { c with executed := true } ∧ r.paidTo = c.beneficiary ∧
      r.amountPaid = c.requestedAmount ∧ r.newBalance = bal - c.requestedAmount) ∧
    (c.existsFlag = true → c.executed = false → now ≥ c.deadline →
      c.verificationCount ≥ TarsDAO.VERIFICATION_THRESHOLD →
      c.approvalCount > c.disapprovalCount → bal ≥ c.requestedAmount →
      TarsDAO.executeCause c now bal =
        .ok { cause := { c with executed := true }, paidTo := c.beneficiary,
              amountPaid := c.requestedAmount, newBalance := bal - c.requestedAmount }) ∧
    (c.existsFlag = true → c.executed = false → now ≥ c.deadline →
      c.verificationCount ≥ TarsDAO.VERIFICATION_THRESHOLD →
      c.approvalCount ≤ c.disapprovalCount →
      TarsDAO.executeCause c now bal = .error .voteNotPassed) ∧
    (c.existsFlag = true → c.executed = false → now ≥ c.deadline →
      c.verificationCount ≥ TarsDAO.VERIFICATION_THRESHOLD →
      c.approvalCount > c.disapprovalCount → bal < c.requestedAmount →
      TarsDAO.executeCause c now bal = .error .insufficientBalance) := by
  refine ⟨?_, ?_, ?_, ?_⟩
  · intro r h
    unfold TarsDAO.executeCause at h
    split_ifs at h with h1 h2 h3 h4 h5 h6 <;>
      simp only [Except.ok.injEq, reduceCtorEq] at h
    subst h
    exact ⟨h1, by simpa using h2, h3, h4, h5, h6, rfl, rfl, rfl, rfl⟩
  · intro h1 h2 h3 h4 h5 h6
    unfold TarsDAO.executeCause
    simp [h1, h2, h3, h4, h5, h6]
  · intro h1 h2 h3 h4 h5
    unfold TarsDAO.executeCause
    simp [h1, h2, h3, h4, Nat.not_lt.mpr h5]
  · intro h1 h2 h3 h4 h5 h6
    unfold TarsDAO.executeCause
    simp [h1, h2, h3, h4, h5, Nat.not_le.mpr h6]

/-- Witness for C5 at concrete states: a funded passed cause executes and
pays the beneficiary; the same cause with an empty treasury fails with the
insufficient-balance revert; a cause with more disapprovals fails with the
vote-not-passed revert. -/
theorem claimC5_witness :
    TarsDAO.executeCause
      { imageHash := 0, description := "c", requestedAmount := 10, beneficiary := 7,
        verificationCount := 3, approvalCount := 5, disapprovalCount := 1,
        deadline := 1000, executed := false, existsFlag := true,
        hasVerified := [1, 2, 3], hasVoted := [1, 2] }
      2000 100 =
      .ok { cause := { imageHash := 0, description := "c", requestedAmount := 10,
                       beneficiary := 7, verificationCount := 3, approvalCount := 5,
                       disapprovalCount := 1, deadline := 1000, executed := true,
                       existsFlag := true, hasVerified := [1, 2, 3], hasVoted := [1, 2] },
            paidTo := 7, amountPaid := 10, newBalance := 90 } ∧
    TarsDAO.executeCause
      { imageHash := 0, description := "c", requestedAmount := 10, beneficiary := 7,
        verificationCount := 3, approvalCount := 5, disapprovalCount := 1,
        deadline := 1000, executed := false, existsFlag := true,
        hasVerified := [1, 2, 3], hasVoted := [1, 2] }
      2000 3 = .error .insufficientBalance ∧
    TarsDAO.executeCause
      { imageHash := 0, description := "c", requestedAmount := 10, beneficiary := 7,
        verificationCount := 3, approvalCount := 1, disapprovalCount := 5,
        deadline := 1000, executed := false, existsFlag := true,
        hasVerified := [1, 2, 3], hasVoted := [1, 2] }
      2000 100 = .error .voteNotPassed := by
  refine ⟨?_, ?_, ?_⟩
  · exact (claimC5_executeCause _ 2000 100).2.1 rfl rfl (by decide) (by decide)
      (by decide) (by decide)
  · exact (claimC5_executeCause _ 2000 3).2.2.2 rfl rfl (by decide) (by decide)
      (by decide) (by decide)
  · exact (claimC5_executeCause _ 2000 100).2.2.1 rfl rfl (by decide) (by decide)
      (by decide)

/-! ## C6: leaveDAO, stake refund, and the stubbed active-proposal guard -/

/-- C6 as stated is false on the code: the active-proposal guard of leaveDAO
is a stub that always reports no active proposals, so a member who has voted
on a still-open proposal can leave.  Concretely, member 1 has a pending vote
on an existing, unexecuted proposal whose deadline (100) is ahead of the
current time (50), yet leaveDAO succeeds and refunds the stake. -/
theorem claimC6_counterexample :
    SimpleDAO.hasUnresolvedVotes
      { members := [1, 2],
        stakes := [(1, 10 ^ 16)],
        proposals := [{ description := "p", forVotes := 1, againstVotes := 0,
                        deadline := 100, executed := false, existsFlag := true,
                        hasVoted := [1] }],
        balance := 10 ^ 16 }
      1 50 = true ∧
    SimpleDAO.leaveDAO
      { members := [1, 2],
        stakes := [(1, 10 ^ 16)],
        proposals := [{ description := "p", forVotes := 1, againstVotes := 0,
                        deadline := 100, executed := false, existsFlag := true,
                        hasVoted := [1] }],
        balance := 10 ^ 16 }
      1 =
      .ok ({ members := [2],
             stakes := [(1, 0)],
             proposals := [{ description := "p", forVotes := 1, againstVotes := 0,
                             deadline := 100, executed := false, existsFlag := true,
                             hasVoted := [1] }],
             balance := 0 },
           10 ^ 16) := by
  constructor
  · decide
  · rfl

/-- C6 amended.  leaveDAO refunds exactly the member's recorded stake (never
less), and it succeeds precisely when the caller is a member with a positive
recorded stake covered by the contract balance -- independently of any pending
votes on active proposals, which the stubbed guard never consults. -/
theorem claimC6_leaveDAO (s : SimpleDAO.DAOState) (a : Address) :
    (∀ s' refund, SimpleDAO.leaveDAO s a = .ok (s', refund) →
      refund = SimpleDAO.stakeOf s a) ∧
    ((∃ pr, SimpleDAO.leaveDAO s a = .ok pr) ↔
      (s.members.contains a = true ∧ 0 < SimpleDAO.stakeOf s a ∧
        SimpleDAO.stakeOf s a ≤ s.balance)) := by
  constructor
  · intro s' refund h
    simp only [SimpleDAO.leaveDAO, SimpleDAO.hasActiveProposals] at h
    split_ifs at h <;>
      simp only [Except.ok.injEq, reduceCtorEq, Prod.mk.injEq,
        Bool.false_eq_true] at h
    exact h.2.symm
  · constructor
    · rintro ⟨pr, h⟩
      simp only [SimpleDAO.leaveDAO, SimpleDAO.hasActiveProposals] at h
      split_ifs at h with h1 h2 h3 h4 <;>
        simp only [Except.ok.injEq, reduceCtorEq, Bool.false_eq_true] at h
      exact ⟨h1, h2, Nat.not_lt.mp h4⟩
    · rintro ⟨h1, h2, h3⟩
      cases hres : SimpleDAO.leaveDAO s a with
      | ok pr => exact ⟨pr, rfl⟩
      | error e =>
        exfalso
        simp only [SimpleDAO.leaveDAO, SimpleDAO.hasActiveProposals] at hres
        split_ifs at hres <;> simp_all <;> omega

/-! ## C3: round trip through the description format -/

set_option maxRecDepth 8192 in
/-- C3 as stated is false on the code: the parser never extracts the urgency
(its result structure has no urgency field), so two records differing only in
urgency serialize to different documents that parse to identical results --
no consumer of the parse can recover the urgency. -/
theorem claimC3_counterexample :
    Proposals.parseProposalDescription (Proposals.proposalDescription { timestamp := "t", location := { coordinates := { lat := 40, lng := -74 }, addressField := none, city := some "Austin", state := some "TX", country := some "USA" }, description := "Flood damage.", categories := ["Environment"], confidence := 85, weather := some { temperature := some 12, conditions := some "Cloudy" }, news := none, impact := { score := 85, category := "Environment", urgency := "high", estimatedImpact := "Residents affected.", recommendedActions := ["Document conditions"] } } "QmCid1") =
    Proposals.parseProposalDescription (Proposals.proposalDescription { timestamp := "t", location := { coordinates := { lat := 40, lng := -74 }, addressField := none, city := some "Austin", state := some "TX", country := some "USA" }, description := "Flood damage.", categories := ["Environment"], confidence := 85, weather := some { temperature := some 12, conditions := some "Cloudy" }, news := none, impact := { score := 85, category := "Environment", urgency := "low", estimatedImpact := "Residents affected.", recommendedActions := ["Document conditions"] } } "QmCid1") ∧
    ("high" : String) ≠ "low" := by
  constructor
  · rfl
  · decide

/-- Helper: find? over a block of non-matching lines followed by a match. -/
theorem find?_of_forall_head (p : String → Bool) (P l2 : List String) (a : String)
    (hP : ∀ x ∈ P, ¬ p x = true) (ha : p a = true) :
    (P ++ a :: l2).find? p = some a := by
  induction P with
  | nil =>
    simpa using List.find?_cons_of_pos _ ha
  | cons b bs ih =>
    rw [List.cons_append, List.find?_cons_of_neg _ (hP b (by simp)),
      ih fun x hx => hP x (by simp [hx])]

set_option maxHeartbeats 1000000 in
/-- Helper: the recommendedActions field of parseLines, unfolded. -/
theorem parseLines_recommendedActions (lines : List String) :
    (Proposals.parseLines lines).recommendedActions =
      match Proposals.recommendedActionsVal lines with
      | some acts => if acts.isEmpty then none else some acts
      | none => none := rfl

set_option maxHeartbeats 1000000 in
/-- Helper: the currentConditions field of parseLines, unfolded. -/
theorem parseLines_currentConditions (lines : List String) :
    (Proposals.parseLines lines).currentConditions =
      match Proposals.currentConditionsVal lines with
      | some (w, t) =>
        if Proposals.jsTruthyStr w || Proposals.jsTruthyStr t then some (w, t)
        else none
      | none => none := rfl

/-- Helper: the description lines split into the front part and the two fixed
closing sentences. -/
theorem proposalDescriptionLines_eq_front (d : Proposals.IPFSAnalysis) (cid : String) :
    Proposals.proposalDescriptionLines d cid =
      (Proposals.proposalDescFront d cid ++
        ["This proposal has been automatically generated from verified IPFS data. "]) ++
      ["All information has been cryptographically secured and can be independently verified."] := by
  simp [Proposals.proposalDescriptionLines, Proposals.proposalDescFront,
    List.append_assoc]

set_option maxHeartbeats 1000000 in
/-- C3 amended.  For a well-formed record, serializing into the description
format and parsing back recovers the location string, the impact score, and
the recommended-action list, and an absent weather field is recovered as
absent (the parser discards the N/A stand-ins the serializer emits); the
urgency, however, is serialized but never parsed back. -/
theorem claimC3_roundTrip (d : Proposals.IPFSAnalysis) (cid : String)
    (hwf : Proposals.wellFormedDoc d cid = true) :
    (Proposals.parseProposalDescription
      (Proposals.proposalDescription d cid)).location =
      Proposals.locationString d.location ∧
    (Proposals.parseProposalDescription
      (Proposals.proposalDescription d cid)).impactScore =
      some (d.impact.score : Int) ∧
    (Proposals.parseProposalDescription
      (Proposals.proposalDescription d cid)).recommendedActions =
      some d.impact.recommendedActions ∧
    (d.weather = none →
      (Proposals.parseProposalDescription
        (Proposals.proposalDescription d cid)).currentConditions = none) := by
  unfold Proposals.wellFormedDoc at hwf
  simp only [Bool.and_eq_true, List.all_eq_true, Bool.not_eq_true',
    beq_iff_eq] at hwf
  obtain ⟨⟨⟨⟨⟨⟨⟨⟨⟨hNL, hDD⟩, hTemp⟩, hW13⟩, hLoc⟩, hLocInc⟩, hDesc⟩, hEst⟩,
    hActs⟩, hActsNe⟩ := hwf
  have hnl : ∀ l ∈ Proposals.proposalDescriptionLines d cid, '\n' ∉ l.data := by
    intro l hl hmem
    have h2 := hNL l hl
    rw [jsIncludes_false_iff "\n" l '\n' [] rfl] at h2
    exact h2 ((infix_singleton_iff '\n' l.data).mpr hmem)
  have hsplit : jsSplit "\n" (Proposals.proposalDescription d cid) =
      Proposals.proposalDescriptionLines d cid :=
    jsSplit_joinNL _ (by simp [Proposals.proposalDescriptionLines]) hnl
  have hddF : (Proposals.proposalDescriptionLines d cid).dropLast.dropLast =
      Proposals.proposalDescFront d cid := by
    rw [proposalDescriptionLines_eq_front, List.dropLast_concat,
      List.dropLast_concat]
  have hfrontmap : (Proposals.proposalDescFront d cid).map jsTrim =
      Proposals.proposalDescFront d cid := by
    have h2 : (Proposals.proposalDescFront d cid).map jsTrim =
        (Proposals.proposalDescFront d cid).map id :=
      List.map_congr_left fun l hl => hDD l (by rw [hddF]; exact hl)
    simpa using h2
  have hT : (Proposals.proposalDescriptionLines d cid).map jsTrim =
      Proposals.proposalDescTrimmed d cid := by
    rw [proposalDescriptionLines_eq_front, List.map_append, List.map_append,
      hfrontmap, List.append_assoc]
    rfl
  have hparse : Proposals.parseProposalDescription
      (Proposals.proposalDescription d cid) =
      Proposals.parseLines (Proposals.proposalDescTrimmed d cid) := by
    unfold Proposals.parseProposalDescription
    rw [hsplit, hT]
  -- location
  have hpos2 : jsStartsWith "Location:"
      ("Location: " ++ Proposals.locationString d.location) = true := by
    unfold jsStartsWith
    rw [String.data_append, isPrefixOf_append_of_le _ _ _ (by decide)]
    decide
  have hlocne : ¬ (("Location:").data <:+:
      (Proposals.locationString d.location).data) := by
    exact (jsIncludes_false_iff "Location:" (Proposals.locationString d.location)
      'L' "ocation:".data rfl).mp hLocInc
  have hsplitloc : jsSplit "Location:"
      ("Location: " ++ Proposals.locationString d.location) =
      ["", " " ++ Proposals.locationString d.location] := by
    rw [show ("Location: " ++ Proposals.locationString d.location) =
      "Location:" ++ (" " ++ Proposals.locationString d.location) from rfl]
    refine jsSplit_label "Location:" _ 'L' "ocation:".data rfl ?_
    exact not_infix_append_left 'L' "ocation:".data [' ']
      (Proposals.locationString d.location).data (by decide) hlocne
  have hlocval : Proposals.labelValue "Location:"
      (Proposals.proposalDescTrimmed d cid) =
      Proposals.locationString d.location := by
    unfold Proposals.labelValue
    rw [show Proposals.proposalDescTrimmed d cid =
      "Impact Initiative Proposal" :: "" ::
      ("Location: " ++ Proposals.locationString d.location) ::
      (Proposals.proposalDescTrimmed d cid).drop 3 from rfl]
    rw [List.find?_cons_of_neg _ (by decide), List.find?_cons_of_neg _ (by decide),
      List.find?_cons_of_pos _ hpos2]
    dsimp only
    rw [hsplitloc]
    show jsTrim (" " ++ Proposals.locationString d.location) = _
    unfold jsTrim
    rw [show (" " ++ Proposals.locationString d.location).data =
      ' ' :: (Proposals.locationString d.location).data from rfl,
      chTrim_cons_space, (jsTrim_eq_self_iff _).mp hLoc]
  -- impact score
  have hscorechars := natRepr_chars d.impact.score
  have hn2 : jsStartsWith "Impact Score:"
      ("Location: " ++ Proposals.locationString d.location) = false := by
    unfold jsStartsWith
    rw [String.data_append]
    exact isPrefixOf_append_of_false _ _ _ (by decide) (by decide)
  have hn3 : jsStartsWith "Impact Score:"
      ("Coordinates: " ++ toString d.location.coordinates.lat ++ ", " ++
        toString d.location.coordinates.lng) = false := by
    unfold jsStartsWith
    simp only [String.data_append, List.append_assoc]
    rw [isPrefixOf_append_of_le _ _ _ (by decide)]
    decide
  have hpos4 : jsStartsWith "Impact Score:"
      ("Impact Score: " ++ toString d.impact.score) = true := by
    unfold jsStartsWith
    rw [String.data_append, isPrefixOf_append_of_le _ _ _ (by decide)]
    decide
  have hsplitscore : jsSplit "Impact Score:"
      ("Impact Score: " ++ toString d.impact.score) =
      ["", " " ++ toString d.impact.score] := by
    rw [show ("Impact Score: " ++ toString d.impact.score) =
      "Impact Score:" ++ (" " ++ toString d.impact.score) from rfl]
    refine jsSplit_label "Impact Score:" _ 'I' "mpact Score:".data rfl ?_
    refine not_infix_append_left 'I' "mpact Score:".data [' ']
      (toString d.impact.score).data (by decide) ?_
    intro hinf
    obtain ⟨m, hm, heq⟩ := hscorechars 'I' (infix_head_mem _ _ _ hinf)
    have hdig := (digitChar_spec m hm).1
    rw [← heq] at hdig
    exact absurd hdig (by decide)
  have hscorene : toString d.impact.score ≠ "" := by
    intro h
    exact natRepr_ne_nil d.impact.score (congrArg String.data h)
  have hscoretrim : jsTrim (" " ++ toString d.impact.score) =
      toString d.impact.score := by
    unfold jsTrim
    rw [show (" " ++ toString d.impact.score).data =
      ' ' :: (toString d.impact.score).data from rfl, chTrim_cons_space]
    show String.mk (chTrim (Nat.repr d.impact.score).data) = Nat.repr d.impact.score
    rw [natRepr_trim]
  have hscoreval : Proposals.labelValue "Impact Score:"
      (Proposals.proposalDescTrimmed d cid) = toString d.impact.score := by
    unfold Proposals.labelValue
    rw [show Proposals.proposalDescTrimmed d cid =
      "Impact Initiative Proposal" :: "" ::
      ("Location: " ++ Proposals.locationString d.location) ::
      ("Coordinates: " ++ toString d.location.coordinates.lat ++ ", " ++
        toString d.location.coordinates.lng) ::
      ("Impact Score: " ++ toString d.impact.score) ::
      (Proposals.proposalDescTrimmed d cid).drop 5 from rfl]
    rw [List.find?_cons_of_neg _ (by decide), List.find?_cons_of_neg _ (by decide),
      List.find?_cons_of_neg _ (by simp [hn2]), List.find?_cons_of_neg _ (by simp [hn3]),
      List.find?_cons_of_pos _ hpos4]
    dsimp only
    rw [hsplitscore]
    exact hscoretrim
  have hscore : Proposals.impactScoreVal
      (Proposals.proposalDescTrimmed d cid) = some (d.impact.score : Int) := by
    simp only [Proposals.impactScoreVal]
    rw [hscoreval, if_neg hscorene]
    exact jsParseInt_natRepr d.impact.score
  -- recommended actions
  have hactsne : d.impact.recommendedActions ≠ [] := by
    simpa [List.isEmpty_iff] using hActsNe
  have hjoin : Proposals.joinLines
      (d.impact.recommendedActions.map fun a => "- " ++ a) =
      d.impact.recommendedActions.map fun a => "- " ++ a := by
    unfold Proposals.joinLines
    rw [if_neg (by simp [hactsne])]
  have hstartdash : ∀ (a : String), jsStartsWith "-" ("- " ++ a) = true := by
    intro a
    unfold jsStartsWith
    rw [String.data_append, isPrefixOf_append_of_le _ _ _ (by decide)]
    decide
  have hne2 : ∀ (pat lit a : String),
      (pat.data.isPrefixOf lit.data) = false →
      (lit.data.isPrefixOf pat.data) = false →
      jsStartsWith pat (lit ++ a) = false := by
    intro pat lit a h1 h2
    unfold jsStartsWith
    rw [String.data_append]
    exact isPrefixOf_append_of_false _ _ _ h1 h2
  have hP : ∀ l ∈ (["Impact Initiative Proposal", "",
      "Location: " ++ Proposals.locationString d.location,
      "Coordinates: " ++ toString d.location.coordinates.lat ++ ", " ++
        toString d.location.coordinates.lng,
      "Impact Score: " ++ toString d.impact.score,
      "Urgency: " ++ d.impact.urgency,
      "Category: " ++ d.impact.category,
      "Verification Status: Verified via IPFS (CID: " ++ cid ++ ")",
      "", "Description:", d.description, "", "Current Conditions:",
      "- Weather: " ++ Proposals.weatherConditionsText d.weather ++ " (" ++
        Proposals.weatherTemperatureText d.weather ++ "°C)"] ++
      Proposals.newsSegment d.news ++
      ["Estimated Impact:", d.impact.estimatedImpact, ""]),
      jsStartsWith "Recommended Actions:" l = false := by
    intro l hl
    simp only [List.mem_append, List.mem_cons, List.not_mem_nil, or_false] at hl
    rcases hl with (h14 | hnews) | h3
    · rcases h14 with rfl | rfl | rfl | rfl | rfl | rfl | rfl | rfl | rfl |
        rfl | rfl | rfl | rfl | rfl
      · decide
      · decide
      · exact hne2 _ "Location: " _ (by decide) (by decide)
      · rw [show "Coordinates: " ++ toString d.location.coordinates.lat ++
          ", " ++ toString d.location.coordinates.lng = "Coordinates: " ++
          (toString d.location.coordinates.lat ++ (", " ++
            toString d.location.coordinates.lng)) by simp [String.append_assoc]]
        exact hne2 _ "Coordinates: " _ (by decide) (by decide)
      · exact hne2 _ "Impact Score: " _ (by decide) (by decide)
      · exact hne2 _ "Urgency: " _ (by decide) (by decide)
      · exact hne2 _ "Category: " _ (by decide) (by decide)
      · rw [show "Verification Status: Verified via IPFS (CID: " ++ cid ++ ")" =
          "Verification Status: Verified via IPFS (CID: " ++ (cid ++ ")") by
            simp [String.append_assoc]]
        exact hne2 _ "Verification Status: Verified via IPFS (CID: " _
          (by decide) (by decide)
      · decide
      · decide
      · exact hDesc
      · decide
      · decide
      · rw [show "- Weather: " ++ Proposals.weatherConditionsText d.weather ++
          " (" ++ Proposals.weatherTemperatureText d.weather ++ "°C)" =
          "- Weather: " ++ (Proposals.weatherConditionsText d.weather ++
            (" (" ++ (Proposals.weatherTemperatureText d.weather ++ "°C)"))) by
            simp [String.append_assoc]]
        exact hne2 _ "- Weather: " _ (by decide) (by decide)
    · rcases hn : d.news with _ | arts
      · rw [hn] at hnews
        simp only [Proposals.newsSegment, List.mem_cons, List.not_mem_nil,
          or_false, or_self] at hnews
        subst hnews
        decide
      · rw [hn] at hnews
        simp only [Proposals.newsSegment, List.mem_append, List.mem_cons,
          List.not_mem_nil, or_false] at hnews
        rcases hnews with ((rfl | rfl) | hjn) | rfl
        · decide
        · decide
        · unfold Proposals.joinLines at hjn
          split_ifs at hjn with hje
          · simp only [List.mem_cons, List.not_mem_nil, or_false] at hjn
            subst hjn
            decide
          · obtain ⟨a, _, rfl⟩ := List.mem_map.mp hjn
            exact hne2 _ "- " _ (by decide) (by decide)
        · decide
    · rcases h3 with rfl | rfl | rfl
      · decide
      · exact hEst
      · decide
  have hAseg : ∀ l ∈ (d.impact.recommendedActions.map fun a => "- " ++ a),
      jsStartsWith "-" l = true ∧
      jsStartsWith "Evidence:" l = false ∧
      jsStartsWith "Verification Details:" l = false := by
    intro l hl
    obtain ⟨a, _, rfl⟩ := List.mem_map.mp hl
    exact ⟨hstartdash a, hne2 _ "- " _ (by decide) (by decide),
      hne2 _ "- " _ (by decide) (by decide)⟩
  have hshape2 : Proposals.proposalDescTrimmed d cid =
      (["Impact Initiative Proposal", "",
        "Location: " ++ Proposals.locationString d.location,
        "Coordinates: " ++ toString d.location.coordinates.lat ++ ", " ++
          toString d.location.coordinates.lng,
        "Impact Score: " ++ toString d.impact.score,
        "Urgency: " ++ d.impact.urgency,
        "Category: " ++ d.impact.category,
        "Verification Status: Verified via IPFS (CID: " ++ cid ++ ")",
        "", "Description:", d.description, "", "Current Conditions:",
        "- Weather: " ++ Proposals.weatherConditionsText d.weather ++ " (" ++
          Proposals.weatherTemperatureText d.weather ++ "°C)"] ++
        Proposals.newsSegment d.news ++
        ["Estimated Impact:", d.impact.estimatedImpact, ""]) ++
      "Recommended Actions:" ::
        ((d.impact.recommendedActions.map fun a => "- " ++ a) ++
          "" :: "Evidence:" ::
            ["- Full Analysis: https://gateway.pinata.cloud/ipfs/" ++ cid,
             "- Confidence Score: " ++ toString d.confidence ++ "%",
             "", "Verification Details:",
             "This proposal has been automatically generated from verified IPFS data.",
             "All information has been cryptographically secured and can be independently verified."]) := by
    unfold Proposals.proposalDescTrimmed Proposals.proposalDescFront
    rw [hjoin]
    simp [List.append_assoc]
  have hrecval : Proposals.recommendedActionsVal
      (Proposals.proposalDescTrimmed d cid) =
      some d.impact.recommendedActions := by
    rw [hshape2, recommendedActionsVal_segment _ _ _ hP hAseg]
    congr 1
    have hmapa : (d.impact.recommendedActions.map fun a => "- " ++ a).map
        (fun l => jsTrim (jsSubstringFrom 1 l)) =
        d.impact.recommendedActions := by
      rw [List.map_map]
      have h2 : List.map ((fun l => jsTrim (jsSubstringFrom 1 l)) ∘
          fun a => "- " ++ a) d.impact.recommendedActions =
          List.map id d.impact.recommendedActions := by
        refine List.map_congr_left fun a ha => ?_
        show jsTrim (jsSubstringFrom 1 ("- " ++ a)) = a
        unfold jsSubstringFrom jsTrim
        rw [show ("- " ++ a).data.drop 1 = ' ' :: a.data from rfl]
        show String.mk (chTrim (' ' :: a.data)) = a
        rw [chTrim_cons_space, (jsTrim_eq_self_iff _).mp (hActs a ha).1]
      simpa using h2
    rw [hmapa]
    exact List.filter_eq_self.mpr fun a ha => (hActs a ha).2
  refine ⟨?_, ?_, ?_, ?_⟩
  · rw [hparse]
    exact hlocval
  · rw [hparse]
    exact hscore
  · rw [hparse, parseLines_recommendedActions, hrecval]
    simp [hactsne]
  · intro hw
    rw [hparse]
    have hW13n : ∀ x ∈ (["Impact Initiative Proposal", "",
         "Location: " ++ Proposals.locationString d.location,
         "Coordinates: " ++ toString d.location.coordinates.lat ++ ", " ++
           toString d.location.coordinates.lng,
         "Impact Score: " ++ toString d.impact.score,
         "Urgency: " ++ d.impact.urgency,
         "Category: " ++ d.impact.category,
         "Verification Status: Verified via IPFS (CID: " ++ cid ++ ")",
         "", "Description:", d.description, "", "Current Conditions:"] : List String),
        ¬ ((fun l => jsIncludes "Weather:" l) x = true) := by
      intro x hx
      have hx2 : x ∈ (Proposals.proposalDescriptionLines d cid).take 13 := by
        rw [show (Proposals.proposalDescriptionLines d cid).take 13 =
          (["Impact Initiative Proposal", "",
         "Location: " ++ Proposals.locationString d.location,
         "Coordinates: " ++ toString d.location.coordinates.lat ++ ", " ++
           toString d.location.coordinates.lng,
         "Impact Score: " ++ toString d.impact.score,
         "Urgency: " ++ d.impact.urgency,
         "Category: " ++ d.impact.category,
         "Verification Status: Verified via IPFS (CID: " ++ cid ++ ")",
         "", "Description:", d.description, "", "Current Conditions:"] : List String) from rfl]
        exact hx
      simp [hW13 x hx2]
    have hfindw : (Proposals.proposalDescTrimmed d cid).find?
        (fun l => jsIncludes "Weather:" l) =
        some ("- Weather: " ++ Proposals.weatherConditionsText d.weather ++
          " (" ++ Proposals.weatherTemperatureText d.weather ++ "°C)") := by
      rw [show Proposals.proposalDescTrimmed d cid =
        (["Impact Initiative Proposal", "",
         "Location: " ++ Proposals.locationString d.location,
         "Coordinates: " ++ toString d.location.coordinates.lat ++ ", " ++
           toString d.location.coordinates.lng,
         "Impact Score: " ++ toString d.impact.score,
         "Urgency: " ++ d.impact.urgency,
         "Category: " ++ d.impact.category,
         "Verification Status: Verified via IPFS (CID: " ++ cid ++ ")",
         "", "Description:", d.description, "", "Current Conditions:"] : List String) ++
        (("- Weather: " ++ Proposals.weatherConditionsText d.weather ++ " (" ++
          Proposals.weatherTemperatureText d.weather ++ "°C)") ::
          (Proposals.proposalDescTrimmed d cid).drop 14) from rfl]
      exact find?_of_forall_head _ _ _ _ hW13n (by rw [hw]; decide)
    have hwlval : Proposals.weatherLineVal
        (Proposals.proposalDescTrimmed d cid) = some "N/A (N/A°C)" := by
      unfold Proposals.weatherLineVal
      rw [hfindw, hw]
      decide
    have htnone : ∀ x ∈ Proposals.proposalDescTrimmed d cid,
        ¬ ((fun l => jsIncludes "Temperature:" l) x = true) := by
      intro x hx
      unfold Proposals.proposalDescTrimmed at hx
      rcases List.mem_append.mp hx with hx1 | hx2
      · have hx3 : x ∈ Proposals.proposalDescriptionLines d cid := by
          rw [proposalDescriptionLines_eq_front]
          exact List.mem_append.mpr (Or.inl (List.mem_append.mpr (Or.inl hx1)))
        simp [hTemp x hx3]
      · simp only [List.mem_cons, List.not_mem_nil, or_false] at hx2
        rcases hx2 with rfl | rfl
        · decide
        · decide
    have htlval : Proposals.temperatureLineVal
        (Proposals.proposalDescTrimmed d cid) = none := by
      unfold Proposals.temperatureLineVal
      rw [List.find?_eq_none.mpr htnone]
      rfl
    have hcc : Proposals.currentConditionsVal
        (Proposals.proposalDescTrimmed d cid) = some (none, none) := by
      unfold Proposals.currentConditionsVal
      rw [hwlval, htlval]
      decide
    rw [parseLines_currentConditions, hcc]
    decide

set_option maxRecDepth 8192 in
/-- Witness for C3 at a concrete well-formed record. -/
theorem claimC3_witness :
    (Proposals.parseProposalDescription (Proposals.proposalDescription { timestamp := "t", location := { coordinates := { lat := 40, lng := -74 }, addressField := none, city := some "Austin", state := some "TX", country := some "USA" }, description := "Flood damage.", categories := ["Environment"], confidence := 85, weather := none, news := none, impact := { score := 85, category := "Environment", urgency := "high", estimatedImpact := "Residents affected.", recommendedActions := ["Document conditions", "Engage stakeholders"] } } "QmCid2")).location = Proposals.locationString { coordinates := { lat := 40, lng := -74 }, addressField := none, city := some "Austin", state := some "TX", country := some "USA" } ∧
    (Proposals.parseProposalDescription (Proposals.proposalDescription { timestamp := "t", location := { coordinates := { lat := 40, lng := -74 }, addressField := none, city := some "Austin", state := some "TX", country := some "USA" }, description := "Flood damage.", categories := ["Environment"], confidence := 85, weather := none, news := none, impact := { score := 85, category := "Environment", urgency := "high", estimatedImpact := "Residents affected.", recommendedActions := ["Document conditions", "Engage stakeholders"] } } "QmCid2")).impactScore = some (85 : Int) ∧
    (Proposals.parseProposalDescription (Proposals.proposalDescription { timestamp := "t", location := { coordinates := { lat := 40, lng := -74 }, addressField := none, city := some "Austin", state := some "TX", country := some "USA" }, description := "Flood damage.", categories := ["Environment"], confidence := 85, weather := none, news := none, impact := { score := 85, category := "Environment", urgency := "high", estimatedImpact := "Residents affected.", recommendedActions := ["Document conditions", "Engage stakeholders"] } } "QmCid2")).recommendedActions = some ["Document conditions", "Engage stakeholders"] ∧
    ((none : Option Proposals.WeatherCtx) = none → (Proposals.parseProposalDescription (Proposals.proposalDescription { timestamp := "t", location := { coordinates := { lat := 40, lng := -74 }, addressField := none, city := some "Austin", state := some "TX", country := some "USA" }, description := "Flood damage.", categories := ["Environment"], confidence := 85, weather := none, news := none, impact := { score := 85, category := "Environment", urgency := "high", estimatedImpact := "Residents affected.", recommendedActions := ["Document conditions", "Engage stakeholders"] } } "QmCid2")).currentConditions = none) :=
  claimC3_roundTrip { timestamp := "t", location := { coordinates := { lat := 40, lng := -74 }, addressField := none, city := some "Austin", state := some "TX", country := some "USA" }, description := "Flood damage.", categories := ["Environment"], confidence := 85, weather := none, news := none, impact := { score := 85, category := "Environment", urgency := "high", estimatedImpact := "Residents affected.", recommendedActions := ["Document conditions", "Engage stakeholders"] } } "QmCid2" (by decide)

/-! ## C7: N/A stand-ins and omitted sections -/

set_option maxRecDepth 8192 in
/-- C7 as stated is false on the code: with weather data absent, the emitted
description still contains the literal substring N/A (the weather line is
always emitted with N/A stand-ins). -/
theorem claimC7_counterexample :
    jsIncludes "N/A" (Proposals.proposalDescription { timestamp := "t", location := { coordinates := { lat := 1, lng := 2 }, addressField := none, city := some "Austin", state := none, country := some "USA" }, description := "Storm damage.", categories := [], confidence := 70, weather := none, news := none, impact := { score := 60, category := "Infrastructure", urgency := "medium", estimatedImpact := "Local disruption.", recommendedActions := ["Assess damage"] } } "QmCid3") = true := by
  decide

/-- C7 amended.  The news section is omitted entirely when the record has no
news data (no line of the document carries its heading), but the weather line
is always emitted, and when weather data is absent its conditions and
temperature are the literal stand-in N/A; parsers must therefore treat N/A as
no data, which parseProposalDescription does. -/
theorem claimC7_sections (d : Proposals.IPFSAnalysis) (cid : String)
    (hw : d.weather = none)
    (hd : jsStartsWith "Recent Related News:" d.description = false)
    (he : jsStartsWith "Recent Related News:" d.impact.estimatedImpact = false) :
    ("- Weather: N/A (N/A°C)" ∈ Proposals.proposalDescriptionLines d cid) ∧
    (d.news = none → ∀ l ∈ Proposals.proposalDescriptionLines d cid,
      jsStartsWith "Recent Related News:" l = false) := by
  have hne2 : ∀ (lit : String) (a : String),
      ("Recent Related News:".data.isPrefixOf lit.data) = false →
      (lit.data.isPrefixOf "Recent Related News:".data) = false →
      jsStartsWith "Recent Related News:" (lit ++ a) = false := by
    intro lit a h1 h2
    unfold jsStartsWith
    rw [String.data_append]
    exact isPrefixOf_append_of_false _ _ _ h1 h2
  constructor
  · rw [show Proposals.proposalDescriptionLines d cid =
      "Impact Initiative Proposal" :: "" ::
      ("Location: " ++ Proposals.locationString d.location) ::
      ("Coordinates: " ++ toString d.location.coordinates.lat ++ ", " ++
        toString d.location.coordinates.lng) ::
      ("Impact Score: " ++ toString d.impact.score) ::
      ("Urgency: " ++ d.impact.urgency) ::
      ("Category: " ++ d.impact.category) ::
      ("Verification Status: Verified via IPFS (CID: " ++ cid ++ ")") ::
      "" :: "Description:" :: d.description :: "" :: "Current Conditions:" ::
      ("- Weather: " ++ Proposals.weatherConditionsText d.weather ++ " (" ++
        Proposals.weatherTemperatureText d.weather ++ "°C)") ::
      (Proposals.proposalDescriptionLines d cid).drop 14 from rfl, hw]
    refine List.mem_cons_of_mem _ ?_
    refine List.mem_cons_of_mem _ ?_
    refine List.mem_cons_of_mem _ ?_
    refine List.mem_cons_of_mem _ ?_
    refine List.mem_cons_of_mem _ ?_
    refine List.mem_cons_of_mem _ ?_
    refine List.mem_cons_of_mem _ ?_
    refine List.mem_cons_of_mem _ ?_
    refine List.mem_cons_of_mem _ ?_
    refine List.mem_cons_of_mem _ ?_
    refine List.mem_cons_of_mem _ ?_
    refine List.mem_cons_of_mem _ ?_
    refine List.mem_cons_of_mem _ ?_
    exact List.mem_cons_self _ _
  · intro hn l hl
    rw [show Proposals.proposalDescriptionLines d cid =
      (["Impact Initiative Proposal", "",
        "Location: " ++ Proposals.locationString d.location,
        "Coordinates: " ++ toString d.location.coordinates.lat ++ ", " ++
          toString d.location.coordinates.lng,
        "Impact Score: " ++ toString d.impact.score,
        "Urgency: " ++ d.impact.urgency,
        "Category: " ++ d.impact.category,
        "Verification Status: Verified via IPFS (CID: " ++ cid ++ ")",
        "", "Description:", d.description, "", "Current Conditions:",
        "- Weather: " ++ Proposals.weatherConditionsText d.weather ++ " (" ++
          Proposals.weatherTemperatureText d.weather ++ "°C)"] ++
        Proposals.newsSegment d.news ++
        ["Estimated Impact:", d.impact.estimatedImpact, "",
         "Recommended Actions:"]) ++
      Proposals.joinLines (d.impact.recommendedActions.map fun a => "- " ++ a) ++
      ["", "Evidence:",
       "- Full Analysis: https://gateway.pinata.cloud/ipfs/" ++ cid,
       "- Confidence Score: " ++ toString d.confidence ++ "%",
       "", "Verification Details:",
       "This proposal has been automatically generated from verified IPFS data. ",
       "All information has been cryptographically secured and can be independently verified."]
      from by unfold Proposals.proposalDescriptionLines; simp [List.append_assoc],
      hn] at hl
    simp only [Proposals.newsSegment, List.mem_append, List.mem_cons,
      List.not_mem_nil, or_false] at hl
    rcases hl with (((h14 | hnews) | hmid) | hjl) | h8
    · rcases h14 with rfl | rfl | rfl | rfl | rfl | rfl | rfl | rfl | rfl |
        rfl | rfl | rfl | rfl | rfl
      · decide
      · decide
      · exact hne2 "Location: " _ (by decide) (by decide)
      · rw [show "Coordinates: " ++ toString d.location.coordinates.lat ++
          ", " ++ toString d.location.coordinates.lng = "Coordinates: " ++
          (toString d.location.coordinates.lat ++ (", " ++
            toString d.location.coordinates.lng)) by simp [String.append_assoc]]
        exact hne2 "Coordinates: " _ (by decide) (by decide)
      · exact hne2 "Impact Score: " _ (by decide) (by decide)
      · exact hne2 "Urgency: " _ (by decide) (by decide)
      · exact hne2 "Category: " _ (by decide) (by decide)
      · rw [show "Verification Status: Verified via IPFS (CID: " ++ cid ++ ")" =
          "Verification Status: Verified via IPFS (CID: " ++ (cid ++ ")") by
            simp [String.append_assoc]]
        exact hne2 "Verification Status: Verified via IPFS (CID: " _
          (by decide) (by decide)
      · decide
      · decide
      · exact hd
      · decide
      · decide
      · rw [show "- Weather: " ++ Proposals.weatherConditionsText d.weather ++
          " (" ++ Proposals.weatherTemperatureText d.weather ++ "°C)" =
          "- Weather: " ++ (Proposals.weatherConditionsText d.weather ++
            (" (" ++ (Proposals.weatherTemperatureText d.weather ++ "°C)"))) by
            simp [String.append_assoc]]
        exact hne2 "- Weather: " _ (by decide) (by decide)
    · rcases hnews with rfl | rfl
      · decide
      · decide
    · rcases hmid with rfl | rfl | rfl | rfl
      · decide
      · exact he
      · decide
      · decide
    · unfold Proposals.joinLines at hjl
      split_ifs at hjl with hje
      · simp only [List.mem_cons, List.not_mem_nil, or_false] at hjl
        subst hjl
        decide
      · obtain ⟨a, _, rfl⟩ := List.mem_map.mp hjl
        exact hne2 "- " _ (by decide) (by decide)
    · rcases h8 with rfl | rfl | rfl | rfl | rfl | rfl | rfl | rfl
      · decide
      · decide
      · exact hne2 "- Full Analysis: https://gateway.pinata.cloud/ipfs/" _
          (by decide) (by decide)
      · rw [show "- Confidence Score: " ++ toString d.confidence ++ "%" =
          "- Confidence Score: " ++ (toString d.confidence ++ "%") by
            simp [String.append_assoc]]
        exact hne2 "- Confidence Score: " _ (by decide) (by decide)
      · decide
      · decide
      · decide
      · decide

/-- Witness for C7: a concrete record with absent weather and news carries
the N/A weather line and no news heading. -/
theorem claimC7_witness :
    ("- Weather: N/A (N/A°C)" ∈ Proposals.proposalDescriptionLines { timestamp := "t", location := { coordinates := { lat := 1, lng := 2 }, addressField := none, city := some "Austin", state := none, country := some "USA" }, description := "Storm damage.", categories := [], confidence := 70, weather := none, news := none, impact := { score := 60, category := "Infrastructure", urgency := "medium", estimatedImpact := "Local disruption.", recommendedActions := ["Assess damage"] } } "QmCid4") ∧
    ((none : Option (List Proposals.NewsArticle)) = none → ∀ l ∈ Proposals.proposalDescriptionLines { timestamp := "t", location := { coordinates := { lat := 1, lng := 2 }, addressField := none, city := some "Austin", state := none, country := some "USA" }, description := "Storm damage.", categories := [], confidence := 70, weather := none, news := none, impact := { score := 60, category := "Infrastructure", urgency := "medium", estimatedImpact := "Local disruption.", recommendedActions := ["Assess damage"] } } "QmCid4", jsStartsWith "Recent Related News:" l = false) :=
  claimC7_sections { timestamp := "t", location := { coordinates := { lat := 1, lng := 2 }, addressField := none, city := some "Austin", state := none, country := some "USA" }, description := "Storm damage.", categories := [], confidence := 70, weather := none, news := none, impact := { score := 60, category := "Infrastructure", urgency := "medium", estimatedImpact := "Local disruption.", recommendedActions := ["Assess damage"] } } "QmCid4" rfl (by decide) (by decide)

/-! ## C8: weather fallback behaviour -/

/-- C8 as stated is false on the code: the fallback to current conditions is
not limited to the access-denied class of failure.  Concretely, a transient
429-style failure (here a 500 status) of the historical endpoint is caught by
the catch-all and also falls back; the returned record is a plain
current-conditions record with no fallback mark (its only difference from a
historical record is the missing timestamp field). -/
theorem claimC8_counterexample :
    WeatherP.getHistoricalWeather true
      (.httpStatus 500 "Too Many Requests")
      (.success { temp := 25, conditions := "Clear", dt := 1700000000 }) =
      some { data := { temp := 25, conditions := "Clear", dt := 1700000000 },
             timestampMark := none } :=
  rfl

/-- C8 amended.  With an API key, getHistoricalWeather returns the marked
historical record on success and falls back to getCurrentWeather on every
failure of the historical fetch, whether access-denied or transient; any
record produced by the current-conditions path carries no historical
timestamp, which is the only distinguishing feature of a fallback record. -/
theorem claimC8_fallback (apiKey : Bool) (hist cur : WeatherP.FetchOutcome) :
    ((∀ d, hist ≠ .success d) →
      WeatherP.getHistoricalWeather apiKey hist cur =
        WeatherP.getCurrentWeather apiKey cur) ∧
    (∀ d, WeatherP.getHistoricalWeather apiKey (.success d) cur =
      if apiKey then some { data := d, timestampMark := some d.dt } else none) ∧
    (∀ r, WeatherP.getCurrentWeather apiKey cur = some r →
      r.timestampMark = none) := by
  refine ⟨?_, ?_, ?_⟩
  · intro hfail
    cases hist with
    | success d => exact absurd rfl (hfail d)
    | httpStatus code body =>
      unfold WeatherP.getHistoricalWeather WeatherP.getCurrentWeather
      cases apiKey <;> simp <;> split_ifs <;> rfl
    | netFailure =>
      unfold WeatherP.getHistoricalWeather WeatherP.getCurrentWeather
      cases apiKey <;> simp
  · intro d
    cases apiKey <;> rfl
  · intro r h
    unfold WeatherP.getCurrentWeather at h
    cases apiKey with
    | false => simp at h
    | true =>
      cases cur <;> simp_all
      exact h.symm ▸ rfl

/-- Witness for C8 at a concrete access-denied failure: the 401 status falls
back to the (unmarked) current-conditions record. -/
theorem claimC8_witness :
    WeatherP.getHistoricalWeather true (.httpStatus 401 "Unauthorized")
      (.success { temp := 7, conditions := "Rain", dt := 1700000001 }) =
      WeatherP.getCurrentWeather true
        (.success { temp := 7, conditions := "Rain", dt := 1700000001 }) :=
  (claimC8_fallback true (.httpStatus 401 "Unauthorized")
    (.success { temp := 7, conditions := "Rain", dt := 1700000001 })).1
    (fun d h => by simp at h)

/-! ## C9: the payload-size normalizer -/

/-- C9 as stated is false on the code: convertHeicToBuffer has no failure
path and no final size check, so when every re-encoding stays over the 5 MiB
ceiling it returns an over-ceiling payload instead of failing.  Concretely,
with encoders that always produce 6 MiB, it returns 6 MiB. -/
theorem claimC9_counterexample :
    Resize.convertHeicToBuffer (6 * 1024 * 1024)
      (fun _ => 6 * 1024 * 1024) (fun _ _ => 6 * 1024 * 1024) =
      6 * 1024 * 1024 ∧
    6 * 1024 * 1024 > Resize.MAX_SIZE := by
  constructor
  · rfl
  · decide

/-- C9 amended.  The image-analysis provider resizer is the routine with the
claimed behaviour: it never returns a payload over its (base64-adjusted)
target and throws when the floor settings are still too large, stepping
quality by 15 with dimension caps 1200, 800, 600.  The cited
convertHeicToBuffer instead steps quality by 10 to a floor of 30, applies a
single 1600-pixel resize, and returns that final buffer unconditionally, even
when every encoding is over the 5 MiB ceiling. -/
theorem claimC9_resize :
    (∀ (origSize : Nat) (enc : Nat → Nat → Nat) (n : Nat),
      Resize.resizeImageIfNeeded origSize enc = .ok n → n ≤ Resize.TARGET_SIZE) ∧
    (∀ (heicSize : Nat) (encQ : Nat → Nat) (encResize : Nat → Nat → Nat),
      heicSize ≤ Resize.MAX_SIZE →
      Resize.convertHeicToBuffer heicSize encQ encResize = heicSize) ∧
    (∀ (heicSize : Nat) (encQ : Nat → Nat) (encResize : Nat → Nat → Nat),
      heicSize > Resize.MAX_SIZE → (∀ q, encQ q > Resize.MAX_SIZE) →
      Resize.convertHeicToBuffer heicSize encQ encResize = encResize 1600 30) := by
  refine ⟨?_, ?_, ?_⟩
  · intro origSize enc n h
    simp only [Resize.resizeImageIfNeeded] at h
    split_ifs at h with h1 h2 h3 <;>
      simp only [Except.ok.injEq, reduceCtorEq] at h <;> omega
  · intro heicSize encQ encResize h
    unfold Resize.convertHeicToBuffer
    rw [if_neg (Nat.not_lt.mpr h)]
  · intro heicSize encQ encResize hgt hover
    unfold Resize.convertHeicToBuffer
    rw [if_pos hgt]
    have hloop : Resize.heicQualityLoopF encQ 80 (encQ 80) 80 = (encQ 30, 30) := by
      simp [Resize.heicQualityLoopF, hover 80, hover 70, hover 60, hover 50,
        hover 40, hover 30]
    rw [hloop]
    simp [hover 30]

/-- Witness for C9 at concrete oracles: a 4 MiB input passes through
untouched; with encoders pinned at 6 MiB the returned buffer is the final
1600-pixel re-encoding. -/
theorem claimC9_witness :
    Resize.convertHeicToBuffer (4 * 1024 * 1024)
      (fun _ => 6 * 1024 * 1024) (fun _ _ => 6 * 1024 * 1024) =
      4 * 1024 * 1024 ∧
    Resize.convertHeicToBuffer (7 * 1024 * 1024)
      (fun _ => 6 * 1024 * 1024) (fun _ _ => 5 * 1024 * 1024) =
      (fun (_ _ : Nat) => 5 * 1024 * 1024) 1600 30 := by
  constructor
  · exact claimC9_resize.2.1 _ _ _ (by decide)
  · exact claimC9_resize.2.2 _ _ _ (by decide) (fun q => by decide)

/-! ## C10: absent geolocation becomes concrete zero coordinates -/

/-- C10.  When no coordinate source is available, formatAnalysisForIPFS
populates the published record with the concrete pair (0, 0) rather than an
absent location; the downstream validator accepts zero coordinates as valid
numbers (given the other required fields), and an absent location is
indistinguishable from a genuine capture at latitude 0, longitude 0. -/
theorem claimC10_zeroCoordinates (s : FormatAnalysis.CoordSources)
    (hml : s.metaLat = none) (hgl : s.gpsLat = none) (hcl : s.ctxLat = none)
    (hmg : s.metaLng = none) (hgg : s.gpsLng = none) (hcg : s.ctxLng = none) :
    FormatAnalysis.formatCoordinates s = (0, 0) ∧
    (∀ s2 : FormatAnalysis.CoordSources,
      s2.metaLat = none → s2.gpsLat = none → s2.ctxLat = some 0 →
      s2.metaLng = none → s2.gpsLng = none → s2.ctxLng = some 0 →
      FormatAnalysis.formatCoordinates s2 = FormatAnalysis.formatCoordinates s) ∧
    (∀ (ts desc : String) (n : Int), ts ≠ "" → desc ≠ "" → n ≠ 0 →
      FormatAnalysis.validateIPFSData
        { timestamp := some ts,
          coordinates := some { lat := .num 0, lng := .num 0 },
          description := some desc, score := some n } = []) := by
  refine ⟨?_, ?_, ?_⟩
  · simp [FormatAnalysis.formatCoordinates, FormatAnalysis.jsNumOrElse,
      FormatAnalysis.jsNumOrZero, hml, hgl, hcl, hmg, hgg, hcg]
  · intro s2 h1 h2 h3 h4 h5 h6
    simp [FormatAnalysis.formatCoordinates, FormatAnalysis.jsNumOrElse,
      FormatAnalysis.jsNumOrZero, hml, hgl, hcl, hmg, hgg, hcg,
      h1, h2, h3, h4, h5, h6]
  · intro ts desc n hts hdesc hn
    simp [FormatAnalysis.validateIPFSData, FormatAnalysis.truthyStr,
      FormatAnalysis.truthyNum, FormatAnalysis.isNumber, hts, hdesc, hn]

/-- Witness for C10 at concrete inputs: empty sources produce (0, 0), a
genuine (0, 0) capture is indistinguishable, and the zero-coordinate record
validates. -/
theorem claimC10_witness :
    FormatAnalysis.formatCoordinates
      { metaLat := none, metaLng := none, gpsLat := none, gpsLng := none,
        ctxLat := none, ctxLng := none } = (0, 0) ∧
    (∀ s2 : FormatAnalysis.CoordSources,
      s2.metaLat = none → s2.gpsLat = none → s2.ctxLat = some 0 →
      s2.metaLng = none → s2.gpsLng = none → s2.ctxLng = some 0 →
      FormatAnalysis.formatCoordinates s2 =
        FormatAnalysis.formatCoordinates
          { metaLat := none, metaLng := none, gpsLat := none, gpsLng := none,
            ctxLat := none, ctxLng := none }) ∧
    (∀ (ts desc : String) (n : Int), ts ≠ "" → desc ≠ "" → n ≠ 0 →
      FormatAnalysis.validateIPFSData
        { timestamp := some ts,
          coordinates := some { lat := .num 0, lng := .num 0 },
          description := some desc, score := some n } = []) :=
  claimC10_zeroCoordinates
    { metaLat := none, metaLng := none, gpsLat := none, gpsLng := none,
      ctxLat := none, ctxLng := none } rfl rfl rfl rfl rfl rfl

/-! ## C1: dedup ledger idempotence and the check-then-act race -/

/-- C1 as stated is false on the code: the ledger is a plain file with a
read-then-write sequence, so the check and the act are separate atomic steps.
In the interleaving where both concurrent callers run their check before
either commits, both observe an unprocessed CID, both create a proposal, and
two proposals result -- refuting that at most one caller proceeds past the
check. -/
theorem claimC1_counterexample :
    (Dedup.runSched "QmX" "0xabc" "t"
      { ledger := [], phase1 := .start, phase2 := .start, createdCount := 0 }
      [true, false, true, false]).createdCount = 2 ∧
    (Dedup.runSched "QmX" "0xabc" "t"
      { ledger := [], phase1 := .start, phase2 := .start, createdCount := 0 }
      [true, false, true, false]).phase1 = .finished (.created "0xabc") ∧
    (Dedup.runSched "QmX" "0xabc" "t"
      { ledger := [], phase1 := .start, phase2 := .start, createdCount := 0 }
      [true, false, true, false]).phase2 = .finished (.created "0xabc") := by
  refine ⟨rfl, rfl, rfl⟩

/-- C1 amended.  Sequentially the pipeline is idempotent: for any ledger not
yet containing the content identifier, the first invocation creates the
proposal and records it, and a second invocation (with any proposal id and
timestamp) observes the record, reports a duplicate, and leaves the ledger
unchanged.  Atomicity of check-then-act under concurrency does not hold (see
the interleaving above). -/
theorem claimC1_sequential (ledger : Dedup.Ledger) (cid pid ts pid2 ts2 : String)
    (h : Dedup.isAlreadyProcessed ledger cid = false) :
    (Dedup.processCID ledger cid pid ts).2 = .created pid ∧
    (Dedup.processCID (Dedup.processCID ledger cid pid ts).1 cid pid2 ts2).2 =
      .duplicate ∧
    (Dedup.processCID (Dedup.processCID ledger cid pid ts).1 cid pid2 ts2).1 =
      (Dedup.processCID ledger cid pid ts).1 := by
  have hdup : Dedup.isAlreadyProcessed
      (Dedup.saveProcessedCID ledger
        { cid := cid, proposalId := pid, timestamp := ts,
          status := true, txHash := none }) cid = true := by
    simp [Dedup.isAlreadyProcessed, Dedup.saveProcessedCID]
  refine ⟨?_, ?_, ?_⟩ <;>
    simp [Dedup.processCID, h, hdup]

/-- Witness for C1 at a concrete run: starting from the empty ledger, the
first invocation creates the proposal, the second reports a duplicate. -/
theorem claimC1_witness :
    (Dedup.processCID [] "QmX" "0xabc" "t1").2 = .created "0xabc" ∧
    (Dedup.processCID (Dedup.processCID [] "QmX" "0xabc" "t1").1
      "QmX" "0xdef" "t2").2 = .duplicate ∧
    (Dedup.processCID (Dedup.processCID [] "QmX" "0xabc" "t1").1
      "QmX" "0xdef" "t2").1 = (Dedup.processCID [] "QmX" "0xabc" "t1").1 :=
  claimC1_sequential [] "QmX" "0xabc" "t1" "0xdef" "t2" rfl

/-- Witness for C6: a two-member DAO where member 1 leaves and is refunded
exactly the recorded minimum stake. -/
theorem claimC6_witness :
    (∀ s' refund,
      SimpleDAO.leaveDAO
        { members := [1, 2], stakes := [(1, 10 ^ 16)], proposals := [],
          balance := 10 ^ 16 } 1 = .ok (s', refund) →
      refund = SimpleDAO.stakeOf
        { members := [1, 2], stakes := [(1, 10 ^ 16)], proposals := [],
          balance := 10 ^ 16 } 1) ∧
    ((∃ pr, SimpleDAO.leaveDAO
        { members := [1, 2], stakes := [(1, 10 ^ 16)], proposals := [],
          balance := 10 ^ 16 } 1 = .ok pr) ↔
      (([1, 2] : List Address).contains 1 = true ∧
        0 < SimpleDAO.stakeOf
          { members := [1, 2], stakes := [(1, 10 ^ 16)], proposals := [],
            balance := 10 ^ 16 } 1 ∧
        SimpleDAO.stakeOf
          { members := [1, 2], stakes := [(1, 10 ^ 16)], proposals := [],
            balance := 10 ^ 16 } 1 ≤ 10 ^ 16)) :=
  claimC6_leaveDAO
    { members := [1, 2], stakes := [(1, 10 ^ 16)], proposals := [],
      balance := 10 ^ 16 } 1

end Tars
